import Mathlib

/-!
# cob_hand bridge node (`src/src/cob_hand_node.cpp`)

A shallow embedding of the control layer of the two-joint finger bridge: the
global variables of the node become one `State` record, every callback becomes a
function on that record, and the calls made on the Motor Link (`SDHX`), the
publisher and `halt()` are recorded in `State.log`.

Conventions.
* `double` values are exact rationals (`ℚ`); the code only compares, subtracts and
  divides them, rounding is not modelled.
* `ros::Time` / `ros::Duration` are integer nanosecond counts with exact arithmetic.
* A function returns `none` where the C++ dereferences the null `g_status` or
  indexes a `std::vector` past its end (undefined behaviour).
* `g_js.name` has exactly two entries: `main` returns before any callback is
  registered unless `g_command.position_cdeg.size() == g_js.name.size()`.
-/

namespace CobHand

/-! ## Data model -/

/-- A `boost::array<T, 2>`: one slot per physical joint. -/
structure Arr2 (α : Type) where
  x0 : α
  x1 : α
deriving DecidableEq, Repr

/-- Read slot `i`, the `operator[]` of `boost::array<T, 2>`. -/
def Arr2.get {α : Type} (a : Arr2 α) (i : Fin 2) : α :=
  if i.val = 0 then a.x0 else a.x1

/-- Write slot `i`. -/
def Arr2.set {α : Type} (a : Arr2 α) (i : Fin 2) (v : α) : Arr2 α :=
  if i.val = 0 then { a with x0 := v } else { a with x1 := v }

/-- The message `cob_hand_bridge::JointValues`. -/
structure JointValues where
  position_cdeg : Arr2 Int
  velocity_cdeg_s : Arr2 Int
  current_100uA : Arr2 Int
deriving DecidableEq, Repr

/-- The message `cob_hand_bridge::Status` (the fields the node uses). -/
structure Status where
  stamp : Int
  status : Nat
  rc : Int
  joints : JointValues
deriving DecidableEq, Repr

/-- A default-constructed `cob_hand_bridge::Status`: every field zero. -/
def Status.fresh : Status :=
  { stamp := 0, status := 0, rc := 0,
    joints := { position_cdeg := ⟨0, 0⟩, velocity_cdeg_s := ⟨0, 0⟩, current_100uA := ⟨0, 0⟩ } }

/-- Declarations the node uses whose text is not part of the sources at hand: the
constants of the generated header `cob_hand_bridge/Status.h` and the two
conversions of `angles/angles.h`. They are parameters of every definition below. -/
structure Ext where
  NOT_INITIALIZED : Nat
  MASK_FINGER_READY : Nat
  MASK_ERROR : Nat
  to_degrees : ℚ → ℚ
  from_degrees : ℚ → ℚ

/-- The error codes of `control_msgs::FollowJointTrajectoryResult`. A
default-constructed result carries `SUCCESSFUL` (0). -/
inductive ErrorCode where
  | SUCCESSFUL
  | INVALID_GOAL
  | INVALID_JOINTS
  | OLD_HEADER_TIMESTAMP
  | PATH_TOLERANCE_VIOLATED
  | GOAL_TOLERANCE_VIOLATED
deriving DecidableEq, Repr

/-- The part of `control_msgs::FollowJointTrajectoryResult` the node writes. -/
structure FJTResult where
  error_code : ErrorCode
deriving DecidableEq, Repr

/-- The value of `control_msgs::FollowJointTrajectoryResult result;`. -/
def FJTResult.fresh : FJTResult := { error_code := ErrorCode.SUCCESSFUL }

/-- A terminal state reported for a goal through the action server. -/
inductive GoalOutcome where
  | succeeded (result : FJTResult)
  | aborted (result : FJTResult) (text : String)
  | preempted
  | canceled
deriving DecidableEq, Repr

/-- The `actionlib::SimpleActionServer` as the node sees it: whether it was
started, whether the current goal is active, and the terminal states reported so
far (oldest first). -/
structure ActionServer where
  started : Bool
  active : Bool
  reported : List GoalOutcome
deriving DecidableEq, Repr

/-- The call `g_as->start()`. -/
def ActionServer.start (a : ActionServer) : ActionServer :=
  { a with started := true }

/-- The call `g_as->acceptNewGoal()`: a goal still being pursued is cancelled, the
new goal becomes the active one. -/
def ActionServer.acceptNewGoal (a : ActionServer) : ActionServer :=
  { a with active := true,
           reported := if a.active then a.reported ++ [GoalOutcome.canceled] else a.reported }

/-- The calls `g_as->setAborted()` and `g_as->setAborted(result, text)`. -/
def ActionServer.setAborted (a : ActionServer) (result : FJTResult) (text : String) :
    ActionServer :=
  { a with active := false, reported := a.reported ++ [GoalOutcome.aborted result text] }

/-- The call `g_as->setSucceeded(result)`. -/
def ActionServer.setSucceeded (a : ActionServer) (result : FJTResult) : ActionServer :=
  { a with active := false, reported := a.reported ++ [GoalOutcome.succeeded result] }

/-- The call `g_as->setPreempted()`. -/
def ActionServer.setPreempted (a : ActionServer) : ActionServer :=
  { a with active := false, reported := a.reported ++ [GoalOutcome.preempted] }

/-- A `ros::Timer` that was created: whether it runs, and its period in nanoseconds. -/
structure Timer where
  running : Bool
  period : Int
deriving DecidableEq, Repr

/-- The call `timer.stop()`. -/
def Timer.stop (t : Timer) : Timer := { t with running := false }

/-- The call `timer.start()`. -/
def Timer.start (t : Timer) : Timer := { t with running := true }

/-- The call `timer.setPeriod(d)`. -/
def Timer.setPeriod (t : Timer) (d : Int) : Timer := { t with period := d }

/-- Modelled from the spec: the class `SDHX` of `sdhx.h` (the Motor Link) is not
among the sources. The node keeps one instance and asks it `isInitialized()`; the
answer is the one field kept here. The results of its other calls (`init`,
`halt`, `getData`, `getRC`) are inputs of the functions that make them. -/
structure SDHX where
  initialized : Bool
deriving DecidableEq, Repr

/-- The global `g_js`, a `sensor_msgs::JointState` (stamp in nanoseconds). -/
structure JointState where
  stamp : Int
  name : Arr2 String
  position : Arr2 ℚ
  velocity : Arr2 ℚ
deriving DecidableEq

/-- What the node does to the outside, in the order it does it. -/
inductive Event where
  | move (position_cdeg velocity_cdeg_s current_100uA : Arr2 Int)
  | halt (linkPresent : Bool)
  | poll
  | publish (js : JointState)
  | tick (stamp : Int)
deriving DecidableEq

/-- The global variables of the node. `g_command_timer` is `none` when
`sdhx/resend_period` is not positive (the handle is never created, `start` and
`stop` do nothing); `g_init_srv` tells whether the init service is advertised. -/
structure State where
  g_status : Option Status
  g_js : JointState
  g_as : ActionServer
  g_command : JointValues
  g_default_command : JointValues
  g_command_timer : Option Timer
  g_deadline_timer : Timer
  g_stopped_velocity : ℚ
  g_stopped_current : ℚ
  g_initialized : Bool
  g_motion_stopped : Bool
  g_control_stopped : Bool
  g_motors_moved : Bool
  g_goal_tolerance : List ℚ
  g_port : String
  g_sdhx : Option SDHX
  g_init_srv : Bool
  log : List Event

/-- Seconds between two instants as a `double`: `a.toSec() - b.toSec()`. -/
def toSec (t : Int) : ℚ := (t : ℚ) / 1000000000

/-! ## Readiness and the completion check -/

/-- `isFingerReady_nolock` (lines 72-74). -/
def isFingerReady_nolock (k : Ext) (s : State) : Bool :=
  match s.g_status with
  | none => false
  | some st =>
    (st.status &&& (k.MASK_FINGER_READY ||| k.MASK_ERROR) == k.MASK_FINGER_READY) && (st.rc == 0)

/-- The `for` loop of `checkAction_nolock` (lines 82-88) over the joints still to
visit. It yields `goal_reached` and `result`; `none` when `g_goal_tolerance[i]`
does not exist. -/
def toleranceLoop (st : Status) (command : JointValues) (tol : List ℚ) :
    List (Fin 2) → FJTResult → Option (Bool × FJTResult)
  | [], result => some (true, result)
  | i :: rest, result =>
    match tol[i.val]? with
    | none => none
    | some t =>
      if |(((st.joints.position_cdeg.get i - command.position_cdeg.get i : Int)) : ℚ)| > t then
        some (false, { result with error_code := ErrorCode.GOAL_TOLERANCE_VIOLATED })
      else toleranceLoop st command tol rest result

/-- Lines 79-89 of `checkAction_nolock`: `goal_reached` and `result` before the
decision. -/
def goalReached (s : State) : Option (Bool × FJTResult) :=
  if s.g_motion_stopped then
    match s.g_status with
    | none => none
    | some st => toleranceLoop st s.g_command s.g_goal_tolerance [0, 1] FJTResult.fresh
  else some (false, FJTResult.fresh)

/-- `checkAction_nolock` (lines 76-104): the returned flag and the state after. -/
def checkAction_nolock (k : Ext) (s : State) (deadline_exceeded : Bool) :
    Option (Bool × State) :=
  if s.g_as.active then
    match goalReached s with
    | none => none
    | some (goal_reached, result) =>
      if !isFingerReady_nolock k s then
        some (true, { s with g_deadline_timer := s.g_deadline_timer.stop,
                             g_as := s.g_as.setAborted FJTResult.fresh "" })
      else if s.g_motion_stopped && (goal_reached || s.g_motors_moved) then
        some (true, { s with g_deadline_timer := s.g_deadline_timer.stop,
                             g_as := s.g_as.setSucceeded result })
      else if deadline_exceeded then
        some (false, { s with g_deadline_timer := s.g_deadline_timer.stop,
                              g_as := s.g_as.setAborted
                                { result with error_code := ErrorCode.GOAL_TOLERANCE_VIOLATED }
                                "goal not reached in time" })
      else some (true, s)
  else some (true, s)

/-! ## Lifecycle: halt, init, recover and the service callbacks -/

/-- `halt()` (lines 106-113). `link_halt_ok` is what `g_sdhx->halt()` answers when
a link exists. The call is recorded in the log with the presence of the link. -/
def halt (s : State) (link_halt_ok : Bool) : Bool × State :=
  let s1 := { s with log := s.log ++ [Event.halt s.g_sdhx.isSome] }
  match s.g_sdhx with
  | none => (false, s1)
  | some _ => (link_halt_ok, s1)

/-- What constructing and initialising a new link yields: the configured port,
the link object after `SDHX::init` ran on it, and the answer of `SDHX::init`. -/
structure LinkInit where
  port : String
  link : SDHX
  ok : Bool

/-- The update `x &= ~m` on an unsigned byte: the bits of `m` are cleared. -/
def clearMask (x m : Nat) : Nat := x ^^^ (x &&& m)

/-- `init()` (lines 115-132). -/
def init (k : Ext) (s : State) (li : LinkInit) : Option (Bool × State) :=
  match s.g_sdhx with
  | none =>
    let s1 := { s with g_sdhx := some li.link, g_port := li.port }
    if li.ok then
      match s1.g_status with
      | none => none
      | some st =>
        let st1 : Status := { st with rc := 0, status := clearMask st.status k.MASK_ERROR }
        some (true, { s1 with g_status := some st1 })
    else some (false, s1)
  | some _ => some (false, s)

/-- `recover()` (lines 134-150). -/
def recover (k : Ext) (s : State) (li : LinkInit) : Option (Bool × State) :=
  match s.g_sdhx with
  | some link =>
    match s.g_status with
    | none => none
    | some st =>
      if (st.status &&& k.MASK_ERROR == 0) && (st.rc == 0) then some (true, s)
      else if link.initialized then
        match init k { s with g_sdhx := none, g_status := some { st with rc := 0 } } li with
        | none => none
        | some (true, s2) =>
          match s2.g_status with
          | none => none
          | some st2 =>
            let st3 : Status := { st2 with status := clearMask st2.status k.MASK_ERROR }
            some (true, { s2 with g_status := some st3 })
        | some (false, s2) => some (false, s2)
      else some (false, s)
  | none => some (false, s)

/-- A `std_srvs::Trigger::Response`. -/
structure TriggerResponse where
  success : Bool
  message : String
deriving DecidableEq, Repr

/-- `initCallback` (lines 152-182), entered with a default response. -/
def initCallback (k : Ext) (s : State) (li : LinkInit) : Option (TriggerResponse × State) :=
  match s.g_status with
  | none => some ({ success := false, message := "hand is not yet connected" }, s)
  | some st =>
    if st.status == k.NOT_INITIALIZED then
      match init k s li with
      | none => none
      | some (true, s1) =>
        some ({ success := true, message := "" },
              { s1 with g_as := s1.g_as.start, g_initialized := true })
      | some (false, s1) =>
        some ({ success := false, message := "Not initialized" },
              { s1 with g_initialized := false })
    else if !s.g_initialized then
      match recover k { s with g_as := s.g_as.start } li with
      | none => none
      | some (r, s1) =>
        some ({ success := true,
                message := "finger already initialized, restarting the controller" },
              { s1 with g_initialized := r })
    else some ({ success := true, message := "already initialized" }, s)

/-- `haltCallback` (lines 184-193). -/
def haltCallback (s : State) (link_halt_ok : Bool) : TriggerResponse × State :=
  match s.g_status with
  | none => ({ success := false, message := "hand is not yet connected" }, s)
  | some _ => ({ success := (halt s link_halt_ok).1, message := "" }, (halt s link_halt_ok).2)

/-- `recoverCallback` (lines 195-204). -/
def recoverCallback (k : Ext) (s : State) (li : LinkInit) :
    Option (TriggerResponse × State) :=
  match s.g_status with
  | none => some ({ success := false, message := "hand is not yet connected" }, s)
  | some _ =>
    match recover k s li with
    | none => none
    | some (r, s1) => some ({ success := r, message := "" }, s1)

/-- One call of `init()` or `recover()`, with what a link construction would
yield should the call make one. -/
inductive LifecycleCall where
  | init (li : LinkInit)
  | recover (li : LinkInit)

/-- Make one call. -/
def runCall (k : Ext) (s : State) : LifecycleCall → Option (Bool × State)
  | LifecycleCall.init li => init k s li
  | LifecycleCall.recover li => recover k s li

/-- Run a sequence of `init()` / `recover()` calls; the answers come back in order. -/
def runCalls (k : Ext) : State → List LifecycleCall → Option (List Bool × State)
  | s, [] => some ([], s)
  | s, c :: rest =>
    match runCall k s c with
    | none => none
    | some (r, s1) =>
      match runCalls k s1 rest with
      | none => none
      | some (rs, s2) => some (r :: rs, s2)

/-! ## Status poller -/

/-- What one poll reads from the link: the answer of `getData`, the three arrays
it filled, and `getRC()`. -/
structure Telemetry where
  ok : Bool
  position_cdeg : Arr2 Int
  velocity_cdeg_s : Arr2 Int
  current_100uA : Arr2 Int
  rc : Int

/-- The variables the joint loop of `statusCallback` updates. -/
structure PollAcc where
  js : JointState
  motion_stopped : Bool
  control_stopped : Bool
  motors_moved : Bool

/-- One round of the joint loop of `statusCallback` (lines 239-252). -/
def pollJoint (k : Ext) (st : Status) (calc_vel : Bool) (dt : ℚ)
    (stopped_velocity stopped_current : ℚ) (acc : PollAcc) (i : Fin 2) : PollAcc :=
  let new_pos := k.from_degrees (((st.joints.position_cdeg.get i : Int) : ℚ) / 100)
  let velocity :=
    if calc_vel then acc.js.velocity.set i ((new_pos - acc.js.position.get i) / dt)
    else acc.js.velocity
  let moving : Bool := decide (|velocity.get i| > stopped_velocity)
  let pushing : Bool :=
    decide (|((st.joints.current_100uA.get i : Int) : ℚ)| > stopped_current)
  { js := { acc.js with velocity := velocity, position := acc.js.position.set i new_pos },
    motion_stopped := if moving then false else acc.motion_stopped,
    motors_moved := if moving then true else acc.motors_moved,
    control_stopped := if pushing then false else acc.control_stopped }

/-- Lines 211-231 of `statusCallback`: the Status after the telemetry was read. -/
def newStatus (k : Ext) (s : State) (current_real : Int) (tel : Telemetry) : Status :=
  let st0 : Status := s.g_status.getD Status.fresh
  let st1 : Status := { st0 with stamp := current_real, status := k.NOT_INITIALIZED }
  match s.g_sdhx with
  | some link =>
    if link.initialized then
      { st1 with
        status := st1.status ||| (if tel.ok then k.MASK_FINGER_READY else k.MASK_ERROR),
        joints := { position_cdeg := tel.position_cdeg,
                    velocity_cdeg_s := tel.velocity_cdeg_s,
                    current_100uA := tel.current_100uA },
        rc := tel.rc }
    else st1
  | none => st1

/-- Lines 206-255 of `statusCallback`: everything before the completion check.
`current_real` is the time of the timer event. -/
def pollStatus (k : Ext) (s : State) (current_real : Int) (tel : Telemetry) : State :=
  let dt : ℚ := toSec s.g_js.stamp - toSec current_real
  let first : Bool := s.g_status.isNone
  let calc_vel : Bool := !first && decide (dt ≠ 0)
  let st2 : Status := newStatus k s current_real tel
  let s1 : State :=
    { s with g_status := some st2, log := s.log ++ [Event.tick st2.stamp],
             g_motion_stopped := true, g_control_stopped := true }
  if st2.status &&& k.MASK_FINGER_READY != 0 then
    let acc := [0, 1].foldl
      (pollJoint k st2 calc_vel dt s.g_stopped_velocity s.g_stopped_current)
      { js := s1.g_js, motion_stopped := true, control_stopped := true,
        motors_moved := s1.g_motors_moved }
    let js := { acc.js with stamp := st2.stamp }
    { s1 with g_js := js, g_motion_stopped := acc.motion_stopped,
              g_control_stopped := acc.control_stopped, g_motors_moved := acc.motors_moved,
              log := s1.log ++ [Event.publish js] }
  else s1

/-- `statusCallback` (lines 206-261). -/
def statusCallback (k : Ext) (s : State) (current_real : Int) (tel : Telemetry) :
    Option State :=
  match checkAction_nolock k (pollStatus k s current_real tel) false with
  | none => none
  | some (_, s2) =>
    let s3 := if s.g_status.isNone then { s2 with g_init_srv := true } else s2
    some (if s3.g_sdhx.isSome then { s3 with log := s3.log ++ [Event.poll] } else s3)

/-! ## Deadline supervisor -/

/-- `handleDeadline` (lines 288-298). -/
def handleDeadline (k : Ext) (s : State) (link_halt_ok : Bool) : Option State :=
  if s.g_as.active then
    match checkAction_nolock k s true with
    | none => none
    | some (true, s1) => some s1
    | some (false, s1) =>
      match s1.g_status with
      | none => none
      | some st =>
        let frozen : JointValues :=
          { s1.g_command with position_cdeg := st.joints.position_cdeg }
        some (halt { s1 with g_command := frozen } link_halt_ok).2
  else some s

/-! ## Goal executor and command watchdog -/

/-- A `trajectory_msgs::JointTrajectoryPoint` (the fields the node reads). -/
structure TrajectoryPoint where
  positions : List ℚ
  effort : List ℚ
  time_from_start : Int

/-- A `control_msgs::JointTolerance` (the fields the node reads). -/
structure JointTolerance where
  name : String
  position : ℚ

/-- A `control_msgs::FollowJointTrajectoryGoal`; `stamp` is
`trajectory.header.stamp`, `points` is `trajectory.points`. -/
structure Goal where
  stamp : Int
  joint_names : List String
  points : List TrajectoryPoint
  goal_tolerance : List JointTolerance
  goal_time_tolerance : Int

/-- How a validation stage of `goalCB` ends: it goes on with a value, it rejects
the goal with a text, or it reads a vector past its end. -/
inductive Step (α : Type) where
  | next (a : α)
  | reject (text : String)
  | undef
deriving DecidableEq

/-- Assigning a `double` to an `int16_t`: the fraction is dropped, the value is
reduced into the 16-bit range (the conversion is undefined outside that range). -/
def toInt16 (q : ℚ) : Int := (Int.tdiv q.num q.den + 32768) % 65536 - 32768

/-- The inner loop of lines 317-333: the first `j` with `name == names[j]`. -/
def firstIndex (name : String) : List String → Option Nat
  | [] => none
  | n :: rest => if name == n then some 0 else (firstIndex name rest).map (· + 1)

/-- The test of line 308: the goal has neither one point, nor two points of which
the first has a zero `time_from_start`. -/
def shapeInvalid (goal : Goal) : Bool :=
  (goal.points.length != 1) &&
    ((goal.points.length != 2) ||
      !((goal.points.head?.map (fun p => p.time_from_start)) == some 0))

/-- One round of the outer loop of lines 316-334 for the configured joint `i`;
the accumulator is `new_command` and `found`. -/
def mapJoint (k : Ext) (name : Arr2 String) (joint_names : List String)
    (last : TrajectoryPoint) (i : Fin 2) (acc : JointValues × Nat) : Step (JointValues × Nat) :=
  match firstIndex (name.get i) joint_names with
  | none => Step.next acc
  | some j =>
    match last.positions[j]? with
    | none => Step.undef
    | some p =>
      let c1 : JointValues :=
        { acc.1 with position_cdeg := acc.1.position_cdeg.set i (toInt16 (k.to_degrees p * 100)) }
      if last.effort.length > 0 then
        if last.effort.length = 2 then
          match last.effort[j]? with
          | none => Step.undef
          | some e =>
            Step.next ({ c1 with current_100uA := c1.current_100uA.set i (toInt16 (e * 1000)) },
                       acc.2 + 1)
        else Step.reject "Number of effort values  mismatch"
      else Step.next (c1, acc.2 + 1)

/-- The outer loop of lines 316-334 over the configured joints still to visit. -/
def mapJoints (k : Ext) (name : Arr2 String) (joint_names : List String)
    (last : TrajectoryPoint) : List (Fin 2) → JointValues × Nat → Step (JointValues × Nat)
  | [], acc => Step.next acc
  | i :: rest, acc =>
    match mapJoint k name joint_names last i acc with
    | Step.next acc1 => mapJoints k name joint_names last rest acc1
    | Step.reject text => Step.reject text
    | Step.undef => Step.undef

/-- The inner loop of lines 344-352: the first configured joint `j` with
`name == g_js.name[j]`. -/
def firstJoint (name : Arr2 String) (n : String) : Option (Fin 2) :=
  [0, 1].find? (fun j => n == name.get j)

/-- The loop of lines 342-357 over the tolerance entries still to visit; `none`
when an entry names no configured joint (`missing`). -/
def goalTolerances (name : Arr2 String) : List JointTolerance → List ℚ → Option (List ℚ)
  | [], tol => some tol
  | t :: rest, tol =>
    match firstJoint name t.name with
    | none => none
    | some j =>
      goalTolerances name rest (if t.position > 0 then tol.set j.val t.position else tol)

/-- The deadline of lines 360-361. -/
def trajectory_deadline (goal : Goal) (last : TrajectoryPoint) (now : Int) : Int :=
  (if goal.stamp = 0 then now else goal.stamp) + last.time_from_start + goal.goal_time_tolerance

/-- The block that hands `g_command` to `g_sdhx->move` (lines 381-389 and 410-418). -/
def sendMove (s : State) : State :=
  if s.g_sdhx.isSome then
    { s with log := s.log ++ [Event.move s.g_command.position_cdeg s.g_command.velocity_cdeg_s
                                s.g_command.current_100uA] }
  else s

/-- A rejection inside `goalCB`: `g_as->setAborted(result, text); return;`. -/
def rejectGoal (s : State) (result : FJTResult) (text : String) : State :=
  { s with g_as := s.g_as.setAborted result text }

/-- Lines 313-357 of `goalCB`: the joint mapping and the tolerances. -/
def validateGoal (k : Ext) (s : State) (goal : Goal) (last : TrajectoryPoint) :
    Step (JointValues × List ℚ) :=
  match mapJoints k s.g_js.name goal.joint_names last [0, 1] (s.g_default_command, 0) with
  | Step.undef => Step.undef
  | Step.reject text => Step.reject text
  | Step.next (new_command, found) =>
    if found ≠ 2 then Step.reject "Joint names mismatch"
    else
      match goalTolerances s.g_js.name goal.goal_tolerance
              (List.replicate 2 (k.to_degrees s.g_stopped_velocity * 100)) with
      | none => Step.reject "Goal tolerance invalid"
      | some goal_tolerance => Step.next (new_command, goal_tolerance)

/-- Lines 375-393 of `goalCB`: the goal is taken over. `now2` is the second
reading of the clock (line 391). -/
def commitGoal (s : State) (new_command : JointValues) (goal_tolerance : List ℚ)
    (deadline now2 : Int) : State :=
  let s1 : State :=
    { s with g_command := new_command, g_goal_tolerance := goal_tolerance,
             g_motors_moved := false, g_command_timer := s.g_command_timer.map Timer.stop }
  let s2 : State := sendMove s1
  { s2 with g_deadline_timer := (s2.g_deadline_timer.setPeriod (deadline - now2)).start,
            g_command_timer := s2.g_command_timer.map Timer.start }

/-- Lines 301-303 of `goalCB`: the goal handed over becomes the active one, the
deadline timer is stopped. -/
def takeGoal (s : State) : State :=
  { s with g_as := s.g_as.acceptNewGoal, g_deadline_timer := s.g_deadline_timer.stop }

/-- Lines 359-393 of `goalCB`, entered with the outcome of the validation of lines
313-357: the deadline test, the readiness test under the lock, the commit. -/
def finishGoal (k : Ext) (s0 : State) (goal : Goal) (last : TrajectoryPoint)
    (now now2 : Int) : Step (JointValues × List ℚ) → Option State
  | Step.undef => none
  | Step.reject text => some (rejectGoal s0 { error_code := ErrorCode.INVALID_GOAL } text)
  | Step.next (new_command, goal_tolerance) =>
    if trajectory_deadline goal last now ≤ now then
      some (rejectGoal s0 { error_code := ErrorCode.OLD_HEADER_TIMESTAMP } "goal is not valid")
    else if !isFingerReady_nolock k s0 then
      some (rejectGoal s0 { error_code := ErrorCode.INVALID_GOAL }
              "SDHx is not ready for commands")
    else
      some (commitGoal s0 new_command goal_tolerance (trajectory_deadline goal last now) now2)

/-- `goalCB` (lines 300-394) for the goal handed over by the action server. `now`
is the clock read at line 359, `now2` the clock read again at line 391. -/
def goalCB (k : Ext) (s : State) (goal : Goal) (now now2 : Int) : Option State :=
  if shapeInvalid goal then
    some (rejectGoal (takeGoal s) { error_code := ErrorCode.INVALID_GOAL } "goal is not valid")
  else
    match goal.points.getLast? with
    | none => none
    | some last =>
      finishGoal k (takeGoal s) goal last now now2 (validateGoal k (takeGoal s) goal last)

/-- `cancelCB` (lines 396-404). -/
def cancelCB (s : State) (link_halt_ok : Bool) : Option State :=
  match s.g_status with
  | none => none
  | some st =>
    let frozen : JointValues := { s.g_command with position_cdeg := st.joints.position_cdeg }
    let s1 : State := { s with g_command := frozen, g_deadline_timer := s.g_deadline_timer.stop }
    let s2 : State := (halt s1 link_halt_ok).2
    some { s2 with g_as := s2.g_as.setPreempted }

/-- `resendCommand` (lines 406-425). -/
def resendCommand (k : Ext) (s : State) (link_halt_ok : Bool) : State :=
  if isFingerReady_nolock k s then
    if s.g_control_stopped || !s.g_motion_stopped then sendMove s else s
  else (halt { s with g_command_timer := s.g_command_timer.map Timer.stop } link_halt_ok).2

/-! ## Wording of the specification and sample data -/

/-- Every joint is within its tolerance of the commanded position: for each joint
`|Status position - Command position| <= goal_tolerance` (the spec's wording, not
the loop of the code). -/
def withinTolerance (st : Status) (s : State) : Prop :=
  ∀ i : Fin 2, ∀ t : ℚ, s.g_goal_tolerance[i.val]? = some t →
    |(((st.joints.position_cdeg.get i - s.g_command.position_cdeg.get i : Int)) : ℚ)| ≤ t

/-- A sample instantiation of the external declarations: single-bit masks and the
degree conversions with 355/113 for pi. -/
def sampleExt : Ext :=
  { NOT_INITIALIZED := 0, MASK_FINGER_READY := 1, MASK_ERROR := 4,
    to_degrees := fun x => x * 180 * 113 / 355,
    from_degrees := fun x => x * 355 / (113 * 180) }

/-- The state `main` leaves behind for joints `j0`, `j1` with the default
parameters: no Status, no link, nothing accepted yet. -/
def startState : State :=
  { g_status := none,
    g_js := { stamp := 0, name := ⟨"j0", "j1"⟩, position := ⟨0, 0⟩, velocity := ⟨0, 0⟩ },
    g_as := { started := false, active := false, reported := [] },
    g_command := { position_cdeg := ⟨0, 0⟩, velocity_cdeg_s := ⟨0, 0⟩, current_100uA := ⟨0, 0⟩ },
    g_default_command :=
      { position_cdeg := ⟨0, 0⟩, velocity_cdeg_s := ⟨1000, 1000⟩, current_100uA := ⟨2120, 1400⟩ },
    g_command_timer := some { running := false, period := 100000000 },
    g_deadline_timer := { running := false, period := 1000000000 },
    g_stopped_velocity := 1 / 20,
    g_stopped_current := 100,
    g_initialized := false,
    g_motion_stopped := false,
    g_control_stopped := false,
    g_motors_moved := false,
    g_goal_tolerance := [],
    g_port := "",
    g_sdhx := none,
    g_init_srv := false,
    log := [] }

/-- A Status of a ready finger at rest at position zero. -/
def readyStatus : Status :=
  { stamp := 1000000000, status := 1, rc := 0,
    joints := { position_cdeg := ⟨0, 0⟩, velocity_cdeg_s := ⟨0, 0⟩, current_100uA := ⟨0, 0⟩ } }

/-- The finger initialised, ready and at rest, no goal active. -/
def readyState : State :=
  { startState with
    g_status := some readyStatus,
    g_js := { stamp := 1000000000, name := ⟨"j0", "j1"⟩, position := ⟨0, 0⟩, velocity := ⟨0, 0⟩ },
    g_as := { started := true, active := false, reported := [] },
    g_initialized := true,
    g_motion_stopped := true,
    g_control_stopped := true,
    g_port := "/dev/ttyACM0",
    g_sdhx := some { initialized := true },
    g_init_srv := true }

/-- A goal towards `[573, 1146]` centidegrees is active, the finger is ready and at
rest at zero, far outside the tolerance of 286 centidegrees. -/
def activeState : State :=
  { readyState with
    g_as := { started := true, active := true, reported := [] },
    g_command :=
      { position_cdeg := ⟨573, 1146⟩, velocity_cdeg_s := ⟨1000, 1000⟩,
        current_100uA := ⟨2120, 1400⟩ },
    g_command_timer := some { running := true, period := 100000000 },
    g_deadline_timer := { running := true, period := 2000000000 },
    g_goal_tolerance := [286, 286] }

/-- Ready and link present, the motor still pushing (control not stopped) while
the motion has stopped. -/
def pushingState : State := { readyState with g_control_stopped := false }

/-- The goal of the spec's scenario: joints `j0`, `j1`, one waypoint at
`[0.1, 0.2]` rad, no effort, two seconds from start, no explicit tolerance. -/
def sampleGoal : Goal :=
  { stamp := 0,
    joint_names := ["j0", "j1"],
    points := [{ positions := [1 / 10, 1 / 5], effort := [], time_from_start := 2000000000 }],
    goal_tolerance := [],
    goal_time_tolerance := 0 }

/-- The state after the first poll of a finger that was never initialised: a
Status exists, `rc` is 0 and no bit is set, and there is no link yet. -/
def polledState : State :=
  { startState with
    g_status := some { Status.fresh with stamp := 1000000000 },
    g_motion_stopped := true,
    g_control_stopped := true,
    g_init_srv := true,
    log := [Event.tick 1000000000] }

/-- A link construction whose `SDHX::init` fails and leaves the link
uninitialised. -/
def failedLink : LinkInit :=
  { port := "/dev/ttyACM0", link := { initialized := false }, ok := false }

/-- The tolerance the spec gives the joint called `name`: the position of the last
entry of the goal's tolerances that names the joint with a positive position, and
the default when the goal has no such entry. -/
def specTolerance (name : String) (tols : List JointTolerance) (dflt : ℚ) : ℚ :=
  match (tols.filter (fun t => t.name == name && decide (t.position > 0))).getLast? with
  | some t => t.position
  | none => dflt

/-- A valid telemetry sample: joint 0 at 100 centidegrees (one degree), joint 1 at
zero, no current, no error code. -/
def movedTelemetry : Telemetry :=
  { ok := true, position_cdeg := ⟨100, 0⟩, velocity_cdeg_s := ⟨0, 0⟩,
    current_100uA := ⟨0, 0⟩, rc := 0 }

/-- What the claim says a call answers while the link exists uninitialised and
the Status is `st`: `Init()` fails, `Recover()` succeeds exactly when the Status
is error-free. -/
def expectedAnswer (k : Ext) (st : Status) : LifecycleCall → Bool
  | LifecycleCall.init _ => false
  | LifecycleCall.recover _ => (st.status &&& k.MASK_ERROR == 0) && (st.rc == 0)

/-- A link construction that succeeds. -/
def goodLink : LinkInit :=
  { port := "/dev/ttyACM0", link := { initialized := true }, ok := true }

/-- One callback of the node together with what the outside hands it: the time of
the timer event and the telemetry for the status poller, the answer of the link
for the callbacks that halt, the goal and the two clock readings for goal
acceptance, the outcome of a link construction for the services that may make
one. `ros::spin()` runs them one after the other. -/
inductive Callback where
  | status (current_real : Int) (tel : Telemetry)
  | deadline (link_halt_ok : Bool)
  | goal (goal : Goal) (now now2 : Int)
  | cancel (link_halt_ok : Bool)
  | resend (link_halt_ok : Bool)
  | initSrv (li : LinkInit)
  | haltSrv (link_halt_ok : Bool)
  | recoverSrv (li : LinkInit)

/-- Run one callback. -/
def runCallback (k : Ext) (s : State) : Callback → Option State
  | Callback.status current_real tel => statusCallback k s current_real tel
  | Callback.deadline link_halt_ok => handleDeadline k s link_halt_ok
  | Callback.goal goal now now2 => goalCB k s goal now now2
  | Callback.cancel link_halt_ok => cancelCB s link_halt_ok
  | Callback.resend link_halt_ok => some (resendCommand k s link_halt_ok)
  | Callback.initSrv li => (initCallback k s li).map Prod.snd
  | Callback.haltSrv link_halt_ok => some (haltCallback s link_halt_ok).2
  | Callback.recoverSrv li => (recoverCallback k s li).map Prod.snd

/-- What goal acceptance leaves behind for the completion check: while a goal is
active the Status exists and `g_goal_tolerance` has one entry per joint. -/
def GoalCommitted (s : State) : Prop :=
  s.g_as.active = true → s.g_status.isSome = true ∧ s.g_goal_tolerance.length = 2

/-- The active goal of `activeState` after an overshoot: the motors moved during
the goal and came to rest at zero, 573 centidegrees off the target and outside
the tolerance of 286. -/
def overshootState : State := { activeState with g_motors_moved := true }

/-- What `main` leaves behind when it enters `ros::spin()` (lines 427-508): no
Status and no link yet, the action server made but not started and without a
goal, no tolerance stored, the flags as the zero-initialised globals, the timers
not running, positive thresholds, nothing done to the outside. -/
def Initial (s : State) : Prop :=
  s.g_status = none ∧ s.g_sdhx = none ∧
  s.g_as = { started := false, active := false, reported := [] } ∧
  s.g_goal_tolerance = [] ∧ s.g_initialized = false ∧ s.g_motion_stopped = false ∧
  s.g_control_stopped = false ∧ s.g_motors_moved = false ∧
  s.g_deadline_timer.running = false ∧ s.g_init_srv = false ∧
  0 < s.g_stopped_velocity ∧ 0 < s.g_stopped_current ∧ s.log = []

/-- The states the node can be in between two callbacks: `ros::spin()` runs the
callbacks one at a time, starting from what `main` left. -/
inductive Reachable (k : Ext) : State → Prop where
  | start (s : State) : Initial s → Reachable k s
  | step (s s1 : State) (cb : Callback) :
      Reachable k s → runCallback k s cb = some s1 → Reachable k s1

/-- While a goal is active the finger is ready. -/
def ActiveReady (k : Ext) (s : State) : Prop :=
  s.g_as.active = true → isFingerReady_nolock k s = true

/-- Run callbacks one after the other. -/
def runCallbacks (k : Ext) : State → List Callback → Option State
  | s, [] => some s
  | s, cb :: rest =>
    match runCallback k s cb with
    | none => none
    | some s1 => runCallbacks k s1 rest

/-- A valid telemetry sample of a finger at rest at zero. -/
def restTelemetry : Telemetry :=
  { ok := true, position_cdeg := ⟨0, 0⟩, velocity_cdeg_s := ⟨0, 0⟩,
    current_100uA := ⟨0, 0⟩, rc := 0 }

/-- A run that takes the node from `startState` to an active goal: first poll,
init service with a link that comes up, a poll that finds the finger ready and at
rest at zero, then the scenario goal handed over at 3 s. -/
def goalRun : List Callback :=
  [Callback.status 1000000000 restTelemetry, Callback.initSrv goodLink,
   Callback.status 2000000000 restTelemetry,
   Callback.goal sampleGoal 3000000000 3000000000]

/-! ## Theorems -/

theorem toleranceLoop_two (st : Status) (s : State) (htol : s.g_goal_tolerance.length = 2) :
    (withinTolerance st s ∧
      toleranceLoop st s.g_command s.g_goal_tolerance [0, 1] FJTResult.fresh =
        some (true, FJTResult.fresh)) ∨
    (¬ withinTolerance st s ∧
      toleranceLoop st s.g_command s.g_goal_tolerance [0, 1] FJTResult.fresh =
        some (false, { error_code := ErrorCode.GOAL_TOLERANCE_VIOLATED })) := by
  obtain ⟨t0, t1, h⟩ : ∃ t0 t1, s.g_goal_tolerance = [t0, t1] := by
    match hl : s.g_goal_tolerance, htol with
    | [a, b], _ => exact ⟨a, b, rfl⟩
  have hw : withinTolerance st s ↔
      (|(((st.joints.position_cdeg.get 0 - s.g_command.position_cdeg.get 0 : Int)) : ℚ)| ≤ t0 ∧
       |(((st.joints.position_cdeg.get 1 - s.g_command.position_cdeg.get 1 : Int)) : ℚ)| ≤ t1) := by
    unfold withinTolerance
    rw [h]
    constructor
    · intro hall
      exact ⟨hall 0 t0 rfl, hall 1 t1 rfl⟩
    · rintro ⟨h0, h1⟩ i t hi
      fin_cases i
      · simp at hi; subst hi; exact h0
      · simp at hi; subst hi; exact h1
  rw [hw, h]
  have e0 : ([t0, t1] : List ℚ)[(0 : Fin 2).val]? = some t0 := rfl
  have e1 : ([t0, t1] : List ℚ)[(1 : Fin 2).val]? = some t1 := rfl
  by_cases c0 : |(((st.joints.position_cdeg.get 0 - s.g_command.position_cdeg.get 0 : Int)) : ℚ)| > t0
  · right
    refine ⟨fun hh => absurd c0 (not_lt.mpr hh.1), ?_⟩
    simp only [toleranceLoop, e0, if_pos c0]
  · by_cases c1 : |(((st.joints.position_cdeg.get 1 - s.g_command.position_cdeg.get 1 : Int)) : ℚ)| > t1
    · right
      refine ⟨fun hh => absurd c1 (not_lt.mpr hh.2), ?_⟩
      simp only [toleranceLoop, e0, e1, if_neg c0, if_pos c1]
    · left
      refine ⟨⟨not_lt.mp c0, not_lt.mp c1⟩, ?_⟩
      simp only [toleranceLoop, e0, e1, if_neg c0, if_neg c1]

/-- The value of `goal_reached` and `result` before the decision of
`checkAction_nolock`, for a state whose Status exists and whose `g_goal_tolerance`
has two entries. -/
theorem goalReached_cases (s : State) (st : Status) (hst : s.g_status = some st)
    (htol : s.g_goal_tolerance.length = 2) :
    (s.g_motion_stopped = false ∧ goalReached s = some (false, FJTResult.fresh)) ∨
    (s.g_motion_stopped = true ∧ withinTolerance st s ∧
      goalReached s = some (true, FJTResult.fresh)) ∨
    (s.g_motion_stopped = true ∧ ¬ withinTolerance st s ∧
      goalReached s = some (false, { error_code := ErrorCode.GOAL_TOLERANCE_VIOLATED })) := by
  unfold goalReached
  cases hm : s.g_motion_stopped with
  | false => left; exact ⟨rfl, by simp⟩
  | true =>
    right
    rcases toleranceLoop_two st s htol with ⟨hw, hl⟩ | ⟨hw, hl⟩
    · left; exact ⟨rfl, hw, by simp [hst, hl]⟩
    · right; exact ⟨rfl, hw, by simp [hst, hl]⟩

/-- The test of line 93 in the words of the spec. -/
theorem goalReached_test (s : State) (st : Status) (hst : s.g_status = some st)
    (htol : s.g_goal_tolerance.length = 2) :
    ∃ gr r, goalReached s = some (gr, r) ∧
      ((s.g_motion_stopped && (gr || s.g_motors_moved)) = true ↔
        (s.g_motion_stopped = true ∧ (withinTolerance st s ∨ s.g_motors_moved = true))) := by
  rcases goalReached_cases s st hst htol with ⟨hm, h⟩ | ⟨hm, hw, h⟩ | ⟨hm, hw, h⟩
  · exact ⟨false, FJTResult.fresh, h, by simp [hm]⟩
  · exact ⟨true, FJTResult.fresh, h, by simp [hm, hw]⟩
  · exact ⟨false, { error_code := ErrorCode.GOAL_TOLERANCE_VIOLATED }, h, by simp [hm, hw]⟩

/-- C1: for a state with an active goal (its Status `st` exists and
`g_goal_tolerance` has its two entries, as goal acceptance leaves them) the
completion check returns, and decides thus: (i) not ready: the goal is aborted
with a default result and the check returns true, whatever the positions and
flags; (ii) ready, motion stopped and (all joints within tolerance or motors
moved): the goal is succeeded, the check returns true; (iii) otherwise, with
`deadline_exceeded`: the goal is aborted with `GOAL_TOLERANCE_VIOLATED` and the
check returns false; (iv) otherwise nothing changes and the check returns true. -/
theorem checkAction_nolock_decides (k : Ext) (s : State) (st : Status)
    (deadline_exceeded : Bool) (hactive : s.g_as.active = true)
    (hst : s.g_status = some st) (htol : s.g_goal_tolerance.length = 2) :
    ∃ ret s1, checkAction_nolock k s deadline_exceeded = some (ret, s1) ∧
      (isFingerReady_nolock k s = false →
        ret = true ∧
        s1 = { s with g_deadline_timer := s.g_deadline_timer.stop,
                      g_as := s.g_as.setAborted FJTResult.fresh "" }) ∧
      (isFingerReady_nolock k s = true →
        (s.g_motion_stopped = true ∧ (withinTolerance st s ∨ s.g_motors_moved = true)) →
        ret = true ∧
        ∃ result, s1 = { s with g_deadline_timer := s.g_deadline_timer.stop,
                                g_as := s.g_as.setSucceeded result }) ∧
      (isFingerReady_nolock k s = true →
        ¬ (s.g_motion_stopped = true ∧ (withinTolerance st s ∨ s.g_motors_moved = true)) →
        deadline_exceeded = true →
        ret = false ∧
        s1 = { s with g_deadline_timer := s.g_deadline_timer.stop,
                      g_as := s.g_as.setAborted
                        { error_code := ErrorCode.GOAL_TOLERANCE_VIOLATED }
                        "goal not reached in time" }) ∧
      (isFingerReady_nolock k s = true →
        ¬ (s.g_motion_stopped = true ∧ (withinTolerance st s ∨ s.g_motors_moved = true)) →
        deadline_exceeded = false →
        ret = true ∧ s1 = s) := by
  obtain ⟨gr, r, hg, hiff⟩ := goalReached_test s st hst htol
  unfold checkAction_nolock
  simp only [hactive, if_true, hg]
  cases hr : isFingerReady_nolock k s with
  | false =>
    exact ⟨true, { s with g_deadline_timer := s.g_deadline_timer.stop,
                          g_as := s.g_as.setAborted FJTResult.fresh "" }, by simp, by simp⟩
  | true =>
    by_cases hc : (s.g_motion_stopped && (gr || s.g_motors_moved)) = true
    · refine ⟨true, { s with g_deadline_timer := s.g_deadline_timer.stop,
                             g_as := s.g_as.setSucceeded r }, ?_,
        by simp, fun _ _ => ⟨rfl, r, rfl⟩, fun _ hn => absurd (hiff.mp hc) hn,
        fun _ hn => absurd (hiff.mp hc) hn⟩
      simp only [Bool.not_true, Bool.false_eq_true, if_false, hc, if_true]
    · cases deadline_exceeded with
      | true =>
        refine ⟨false, { s with g_deadline_timer := s.g_deadline_timer.stop,
                                g_as := s.g_as.setAborted
                                  { error_code := ErrorCode.GOAL_TOLERANCE_VIOLATED }
                                  "goal not reached in time" }, ?_,
          by simp, fun _ hp => absurd (hiff.mpr hp) hc, fun _ _ _ => ⟨rfl, rfl⟩, by simp⟩
        simp only [Bool.not_true, Bool.false_eq_true, if_false, hc, if_true]
      | false =>
        refine ⟨true, s, ?_,
          by simp, fun _ hp => absurd (hiff.mpr hp) hc, by simp, fun _ _ _ => ⟨rfl, rfl⟩⟩
        simp only [Bool.not_true, Bool.false_eq_true, if_false, hc]

/-- C1 at a concrete state: ready, at rest, 573 centidegrees off a target with
tolerance 286, motors never moved, deadline exceeded: the check returns false. -/
theorem checkAction_nolock_decides_witness :
    activeState.g_as.active = true ∧ activeState.g_status = some readyStatus ∧
    activeState.g_goal_tolerance.length = 2 ∧
    (checkAction_nolock sampleExt activeState true).map Prod.fst = some false := by
  refine ⟨rfl, rfl, rfl, ?_⟩
  obtain ⟨ret, s1, h, _, _, h3, _⟩ :=
    checkAction_nolock_decides sampleExt activeState readyStatus true rfl rfl rfl
  have hready : isFingerReady_nolock sampleExt activeState = true := by decide
  have hout : ¬ (activeState.g_motion_stopped = true ∧
      (withinTolerance readyStatus activeState ∨ activeState.g_motors_moved = true)) := by
    rintro ⟨_, hw | hm⟩
    · have h0 := hw 0 286 rfl
      norm_num [readyStatus, activeState, Arr2.get] at h0
    · exact absurd hm (by decide)
  rw [h, (h3 hready hout rfl).1]
  rfl

/-- C2, as the code has it: a watchdog tick (i) when not ready stops the watchdog
timer, calls `halt()` and sends no move; (ii) when ready with `control_stopped`
true or `motion_stopped` false hands the current Command to the Motor Link if one
exists and changes nothing else; (iii) when ready with `control_stopped` false
and `motion_stopped` true does nothing; (iv) never touches its own timer while
ready. -/
theorem resendCommand_tick (k : Ext) (s : State) (link_halt_ok : Bool) :
    (isFingerReady_nolock k s = false →
      resendCommand k s link_halt_ok =
        { s with g_command_timer := s.g_command_timer.map Timer.stop,
                 log := s.log ++ [Event.halt s.g_sdhx.isSome] }) ∧
    (isFingerReady_nolock k s = true →
      (s.g_control_stopped = true ∨ s.g_motion_stopped = false) →
      resendCommand k s link_halt_ok =
        { s with log := s.log ++
            (if s.g_sdhx.isSome then
              [Event.move s.g_command.position_cdeg s.g_command.velocity_cdeg_s
                s.g_command.current_100uA]
             else []) }) ∧
    (isFingerReady_nolock k s = true →
      s.g_control_stopped = false → s.g_motion_stopped = true →
      resendCommand k s link_halt_ok = s) ∧
    (isFingerReady_nolock k s = true →
      (resendCommand k s link_halt_ok).g_command_timer = s.g_command_timer) := by
  refine ⟨?_, ?_, ?_, ?_⟩
  · intro hr
    unfold resendCommand halt
    simp only [hr, Bool.false_eq_true, if_false]
    cases s.g_sdhx <;> rfl
  · intro hr hc
    unfold resendCommand sendMove
    have hc2 : (s.g_control_stopped || !s.g_motion_stopped) = true := by
      rcases hc with h | h <;> simp [h]
    simp only [hr, if_true, hc2]
    by_cases hl : s.g_sdhx.isSome = true
    · simp only [hl, if_true]
    · simp only [hl, Bool.false_eq_true, if_false, List.append_nil]
  · intro hr h1 h2
    unfold resendCommand
    simp [hr, h1, h2]
  · intro hr
    unfold resendCommand sendMove
    simp only [hr, if_true]
    split
    · split <;> rfl
    · rfl

/-- C2 refuted as written: ready with both stopped flags set, the tick does send
the Command; ready with `control_stopped` false and `motion_stopped` true, it
sends nothing. -/
theorem resendCommand_resend_condition_counterexample :
    (isFingerReady_nolock sampleExt readyState = true ∧
      readyState.g_control_stopped = true ∧ readyState.g_motion_stopped = true ∧
      (resendCommand sampleExt readyState true).log =
        readyState.log ++ [Event.move ⟨0, 0⟩ ⟨0, 0⟩ ⟨0, 0⟩]) ∧
    (isFingerReady_nolock sampleExt pushingState = true ∧
      pushingState.g_control_stopped = false ∧ pushingState.g_sdhx.isSome = true ∧
      (resendCommand sampleExt pushingState true).log = pushingState.log) := by
  refine ⟨⟨by decide, rfl, rfl, ?_⟩, ⟨by decide, rfl, rfl, ?_⟩⟩
  · decide
  · decide

/-- C2 (amended) at the idle state: ready with both flags set, the Command is
resent and the timer keeps running as it was. -/
theorem resendCommand_tick_witness :
    isFingerReady_nolock sampleExt readyState = true ∧
    (resendCommand sampleExt readyState true).g_command_timer =
      readyState.g_command_timer :=
  ⟨by decide, (resendCommand_tick sampleExt readyState true).2.2.2 (by decide)⟩

theorem firstIndex_eq_none_iff (n : String) (l : List String) :
    firstIndex n l = none ↔ n ∉ l := by
  induction l with
  | nil => simp [firstIndex]
  | cons a rest ih =>
    unfold firstIndex
    by_cases hna : n = a
    · simp [hna]
    · have hb : (n == a) = false := by simpa using hna
      simp [hb, ih, hna]

/-- With disjoint masks, `(x & (a | b)) == a` says: the bits of `a` are set in `x`
and the bits of `b` are clear. -/
theorem mask_test (x a b : Nat) (hab : a &&& b = 0) :
    x &&& (a ||| b) = a ↔ (x &&& a = a ∧ x &&& b = 0) := by
  have hbit : ∀ i, (a.testBit i && b.testBit i) = false := by
    intro i
    have := congrArg (fun n => n.testBit i) hab
    simpa [Nat.testBit_and] using this
  constructor
  · intro h
    have hx : ∀ i, (x.testBit i && (a.testBit i || b.testBit i)) = a.testBit i := by
      intro i
      have := congrArg (fun n => n.testBit i) h
      simpa [Nat.testBit_and, Nat.testBit_or] using this
    constructor
    · apply Nat.eq_of_testBit_eq
      intro i
      have h1 := hx i
      have h2 := hbit i
      rw [Nat.testBit_and]
      revert h1 h2
      cases x.testBit i <;> cases a.testBit i <;> cases b.testBit i <;> simp
    · apply Nat.eq_of_testBit_eq
      intro i
      have h1 := hx i
      have h2 := hbit i
      rw [Nat.testBit_and, Nat.zero_testBit]
      revert h1 h2
      cases x.testBit i <;> cases a.testBit i <;> cases b.testBit i <;> simp
  · rintro ⟨h1, h2⟩
    rw [Nat.and_or_distrib_left, h1, h2, Nat.or_zero]

/-- What `isFingerReady_nolock` means when the two masks share no bit: a Status
exists, its `FINGER_READY` bits are set, its `ERROR` bits are clear, `rc == 0`. -/
theorem isFingerReady_nolock_iff (k : Ext) (s : State)
    (hmask : k.MASK_FINGER_READY &&& k.MASK_ERROR = 0) :
    isFingerReady_nolock k s = true ↔
      ∃ st, s.g_status = some st ∧ st.status &&& k.MASK_FINGER_READY = k.MASK_FINGER_READY ∧
        st.status &&& k.MASK_ERROR = 0 ∧ st.rc = 0 := by
  unfold isFingerReady_nolock
  cases hs : s.g_status with
  | none => simp
  | some st =>
    simp only [Bool.and_eq_true, beq_iff_eq, Option.some.injEq, exists_eq_left']
    rw [mask_test _ _ _ hmask]
    tauto

theorem mapJoint_found (k : Ext) (name : Arr2 String) (jn : List String)
    (last : TrajectoryPoint) (i : Fin 2) (acc acc1 : JointValues × Nat)
    (h : mapJoint k name jn last i acc = Step.next acc1) :
    acc1.2 = acc.2 + (if (firstIndex (name.get i) jn).isSome then 1 else 0) := by
  unfold mapJoint at h
  cases hf : firstIndex (name.get i) jn with
  | none =>
    simp only [hf, Step.next.injEq] at h
    subst h
    simp
  | some j =>
    simp only [hf] at h
    cases hp : last.positions[j]? with
    | none => simp [hp] at h
    | some p =>
      simp only [hp] at h
      split at h
      · split at h
        · cases he : last.effort[j]? with
          | none => simp [he] at h
          | some e =>
            simp only [he, Step.next.injEq] at h
            subst h
            simp
        · simp at h
      · simp only [Step.next.injEq] at h
        subst h
        simp

/-- The joint mapping passes only when both configured names occur in the goal. -/
theorem mapJoints_found (k : Ext) (name : Arr2 String) (jn : List String)
    (last : TrajectoryPoint) (c cmd : JointValues) (found : Nat)
    (h : mapJoints k name jn last [0, 1] (c, 0) = Step.next (cmd, found)) :
    found = 2 ↔ (name.x0 ∈ jn ∧ name.x1 ∈ jn) := by
  simp only [mapJoints] at h
  cases h0 : mapJoint k name jn last 0 (c, 0) with
  | undef => simp [h0] at h
  | reject text => simp [h0] at h
  | next a0 =>
    simp only [h0] at h
    cases h1 : mapJoint k name jn last 1 a0 with
    | undef => simp [h1] at h
    | reject text => simp [h1] at h
    | next a1 =>
      simp only [h1, Step.next.injEq] at h
      have e0 := mapJoint_found k name jn last 0 (c, 0) a0 h0
      have e1 := mapJoint_found k name jn last 1 a0 a1 h1
      rw [h] at e1
      simp only at e0 e1
      have g0 : name.get 0 = name.x0 := rfl
      have g1 : name.get 1 = name.x1 := rfl
      rw [g0] at e0
      rw [g1] at e1
      have m0 := firstIndex_eq_none_iff name.x0 jn
      have m1 := firstIndex_eq_none_iff name.x1 jn
      cases f0 : firstIndex name.x0 jn with
      | none =>
        cases f1 : firstIndex name.x1 jn with
        | none =>
          rw [f0] at e0 m0; rw [f1] at e1 m1
          simp at e0 e1 m0 m1
          constructor
          · intro hh; omega
          · intro hh; exact absurd hh.1 m0
        | some j1 =>
          rw [f0] at e0 m0; rw [f1] at e1
          simp at e0 e1 m0
          constructor
          · intro hh; omega
          · intro hh; exact absurd hh.1 m0
      | some j0 =>
        cases f1 : firstIndex name.x1 jn with
        | none =>
          rw [f0] at e0; rw [f1] at e1 m1
          simp at e0 e1 m1
          constructor
          · intro hh; omega
          · intro hh; exact absurd hh.2 m1
        | some j1 =>
          rw [f0] at e0 m0; rw [f1] at e1 m1
          simp at e0 e1 m0 m1
          constructor
          · intro _; exact ⟨m0, m1⟩
          · intro _; omega

/-- What a passed validation tells: both configured names occur in the goal, and
the tolerances are those of the tolerance loop started from the default. -/
theorem validateGoal_next (k : Ext) (s : State) (goal : Goal) (last : TrajectoryPoint)
    (cmd : JointValues) (tol : List ℚ)
    (h : validateGoal k s goal last = Step.next (cmd, tol)) :
    (s.g_js.name.x0 ∈ goal.joint_names ∧ s.g_js.name.x1 ∈ goal.joint_names) ∧
    goalTolerances s.g_js.name goal.goal_tolerance
      (List.replicate 2 (k.to_degrees s.g_stopped_velocity * 100)) = some tol := by
  unfold validateGoal at h
  generalize List.replicate 2 (k.to_degrees s.g_stopped_velocity * 100) = d at h ⊢
  cases hm : mapJoints k s.g_js.name goal.joint_names last [0, 1] (s.g_default_command, 0) with
  | undef => simp [hm] at h
  | reject text => simp [hm] at h
  | next acc =>
    obtain ⟨c, found⟩ := acc
    simp only [hm] at h
    by_cases hf : found = 2
    · simp only [hf, ne_eq, not_true_eq_false, if_false] at h
      refine ⟨(mapJoints_found k _ _ last _ c found hm).mp hf, ?_⟩
      cases ht : goalTolerances s.g_js.name goal.goal_tolerance d with
      | none => simp [ht] at h
      | some t =>
        simp only [ht, Step.next.injEq, Prod.mk.injEq] at h
        rw [h.2]
    · simp [hf] at h

/-- What the commit of lines 375-393 leaves in the state. -/
theorem commitGoal_fields (s : State) (cmd : JointValues) (tol : List ℚ) (d now2 : Int) :
    (commitGoal s cmd tol d now2).g_as = s.g_as ∧
    (commitGoal s cmd tol d now2).g_command = cmd ∧
    (commitGoal s cmd tol d now2).g_goal_tolerance = tol ∧
    (commitGoal s cmd tol d now2).g_motors_moved = false ∧
    (commitGoal s cmd tol d now2).g_deadline_timer = { running := true, period := d - now2 } ∧
    (commitGoal s cmd tol d now2).g_status = s.g_status ∧
    (commitGoal s cmd tol d now2).log = s.log ++
      (if s.g_sdhx.isSome then
        [Event.move cmd.position_cdeg cmd.velocity_cdeg_s cmd.current_100uA]
       else []) := by
  by_cases h : s.g_sdhx.isSome = true <;>
    simp [commitGoal, sendMove, h, Timer.start, Timer.setPeriod]

/-- C6, as the code has it: with a Status whose `rc` is 0 and whose `ERROR` bits
are clear, `recover()` changes nothing; it answers success when a link exists and
failure when none exists yet. -/
theorem recover_error_free (k : Ext) (s : State) (st : Status) (li : LinkInit)
    (hst : s.g_status = some st) (hrc : st.rc = 0) (herr : st.status &&& k.MASK_ERROR = 0) :
    (s.g_sdhx.isSome = true → recover k s li = some (true, s)) ∧
    (s.g_sdhx = none → recover k s li = some (false, s)) := by
  constructor
  · intro hl
    unfold recover
    cases hs : s.g_sdhx with
    | none => simp [hs] at hl
    | some link => simp [hst, hrc, herr]
  · intro hl
    unfold recover
    simp [hl]

/-- C6 refuted as written: after the first poll (Status present, `rc` 0, no bit
set) and before any link was made, `recover()` answers failure. -/
theorem recover_without_link_counterexample :
    (∃ st, polledState.g_status = some st ∧ st.rc = 0 ∧
      st.status &&& sampleExt.MASK_ERROR = 0) ∧
    polledState.g_sdhx = none ∧
    (recover sampleExt polledState failedLink).map Prod.fst = some false := by
  refine ⟨⟨_, rfl, rfl, by decide⟩, rfl, by decide⟩

/-- C6 (amended) at a concrete input: the ready finger has a link and no error,
`recover()` answers success and leaves the state alone. -/
theorem recover_error_free_witness :
    readyState.g_status = some readyStatus ∧ readyStatus.rc = 0 ∧
    readyStatus.status &&& sampleExt.MASK_ERROR = 0 ∧ readyState.g_sdhx.isSome = true ∧
    recover sampleExt readyState failedLink = some (true, readyState) :=
  ⟨rfl, rfl, by decide, rfl,
    (recover_error_free sampleExt readyState readyStatus failedLink rfl rfl (by decide)).1 rfl⟩

/-- What `handleDeadline` does on an active goal whose Status `st` exists and whose
`g_goal_tolerance` has two entries: (i) if the finger is ready and the goal was
not reached (the check returns false) the goal is aborted with
`GOAL_TOLERANCE_VIOLATED`, the Command position is set to the Status position and
`halt()` is called; (ii) if the finger is not ready the check aborts the goal and
returns true, Command is unchanged and `halt()` is not called; (iii) if the goal
succeeds Command is unchanged and `halt()` is not called. -/
theorem handleDeadline_cases (k : Ext) (s : State) (st : Status) (link_halt_ok : Bool)
    (hactive : s.g_as.active = true) (hst : s.g_status = some st)
    (htol : s.g_goal_tolerance.length = 2) :
    ∃ s1, handleDeadline k s link_halt_ok = some s1 ∧
      (isFingerReady_nolock k s = true →
        ¬ (s.g_motion_stopped = true ∧ (withinTolerance st s ∨ s.g_motors_moved = true)) →
        s1.g_as = s.g_as.setAborted { error_code := ErrorCode.GOAL_TOLERANCE_VIOLATED }
          "goal not reached in time" ∧
        s1.g_command = { s.g_command with position_cdeg := st.joints.position_cdeg } ∧
        s1.log = s.log ++ [Event.halt s.g_sdhx.isSome]) ∧
      (isFingerReady_nolock k s = false →
        s1.g_as = s.g_as.setAborted FJTResult.fresh "" ∧
        s1.g_command = s.g_command ∧ s1.log = s.log) ∧
      (isFingerReady_nolock k s = true →
        (s.g_motion_stopped = true ∧ (withinTolerance st s ∨ s.g_motors_moved = true)) →
        (∃ result, s1.g_as = s.g_as.setSucceeded result) ∧
        s1.g_command = s.g_command ∧ s1.log = s.log) := by
  obtain ⟨gr, r, hg, hiff⟩ := goalReached_test s st hst htol
  unfold handleDeadline checkAction_nolock
  simp only [hactive, if_true, hg]
  cases hr : isFingerReady_nolock k s with
  | false =>
    exact ⟨{ s with g_deadline_timer := s.g_deadline_timer.stop,
                    g_as := s.g_as.setAborted FJTResult.fresh "" },
      by simp, by simp, fun _ => ⟨rfl, rfl, rfl⟩, by simp⟩
  | true =>
    by_cases hc : (s.g_motion_stopped && (gr || s.g_motors_moved)) = true
    · refine ⟨{ s with g_deadline_timer := s.g_deadline_timer.stop,
                       g_as := s.g_as.setSucceeded r }, ?_,
        fun _ hn => absurd (hiff.mp hc) hn, by simp, fun _ _ => ⟨⟨r, rfl⟩, rfl, rfl⟩⟩
      simp only [Bool.not_true, Bool.false_eq_true, if_false, hc, if_true]
    · refine ⟨(halt { s with g_deadline_timer := s.g_deadline_timer.stop,
                             g_as := s.g_as.setAborted
                               { error_code := ErrorCode.GOAL_TOLERANCE_VIOLATED }
                               "goal not reached in time",
                             g_command :=
                               { s.g_command with position_cdeg := st.joints.position_cdeg } }
                link_halt_ok).2, ?_, ?_, by simp, fun _ hp => absurd (hiff.mpr hp) hc⟩
      · simp only [Bool.not_true, Bool.false_eq_true, if_false, hc, if_true, hst]
      · intro _ _
        unfold halt
        cases s.g_sdhx <;> exact ⟨rfl, rfl, rfl⟩

theorem specTolerance_cons (name : String) (t : JointTolerance) (rest : List JointTolerance)
    (d : ℚ) :
    specTolerance name (t :: rest) d =
      specTolerance name rest
        (if (t.name == name && decide (t.position > 0)) = true then t.position else d) := by
  unfold specTolerance
  rw [List.filter_cons]
  by_cases hp : (t.name == name && decide (t.position > 0)) = true
  · simp only [hp, if_true]
    rw [List.getLast?_cons]
    cases (List.filter (fun t => t.name == name && decide (t.position > 0)) rest).getLast? <;>
      simp
  · have hp0 : (t.name == name && decide (t.position > 0)) = false := by simpa using hp
    simp only [hp0, Bool.false_eq_true, if_false]

/-- An accepted goal passed the validation, found the finger ready, and went
through the commit. -/
theorem goalCB_accepted (k : Ext) (s : State) (goal : Goal) (now now2 : Int) (s1 : State)
    (h : goalCB k s goal now now2 = some s1) (ha : s1.g_as.active = true) :
    ∃ last cmd tol, validateGoal k (takeGoal s) goal last = Step.next (cmd, tol) ∧
      isFingerReady_nolock k s = true ∧
      s1 = commitGoal (takeGoal s) cmd tol (trajectory_deadline goal last now) now2 := by
  have hrej : ∀ result text, s1 = rejectGoal (takeGoal s) result text → False := by
    intro result text e
    rw [e] at ha
    simp [rejectGoal, ActionServer.setAborted] at ha
  unfold goalCB at h
  split at h
  · exact (hrej _ _ (Option.some.inj h).symm).elim
  · cases hl : goal.points.getLast? with
    | none => simp [hl] at h
    | some last =>
      simp only [hl] at h
      cases hv : validateGoal k (takeGoal s) goal last with
      | undef => simp [hv, finishGoal] at h
      | reject text =>
        simp only [hv, finishGoal, Option.some.injEq] at h
        exact (hrej _ _ h.symm).elim
      | next acc =>
        obtain ⟨cmd, tol⟩ := acc
        simp only [hv, finishGoal] at h
        split at h
        · exact (hrej _ _ (Option.some.inj h).symm).elim
        · have hrs : isFingerReady_nolock k (takeGoal s) = isFingerReady_nolock k s := rfl
          rw [hrs] at h
          cases hr : isFingerReady_nolock k s with
          | false =>
            simp only [hr, Bool.not_false, if_true, Option.some.injEq] at h
            exact (hrej _ _ h.symm).elim
          | true =>
            simp only [hr, Bool.not_true, Bool.false_eq_true, if_false, Option.some.injEq] at h
            exact ⟨last, cmd, tol, hv, rfl, h.symm⟩

/-- The spec's tolerance is the default when the goal supplies no positive
tolerance for the joint, and the last positive one otherwise. -/
theorem specTolerance_meaning (name : String) (d : ℚ) :
    (∀ tols : List JointTolerance, (∀ t ∈ tols, t.name = name → t.position ≤ 0) →
      specTolerance name tols d = d) ∧
    (∀ (front back : List JointTolerance) (t : JointTolerance), t.name = name →
      0 < t.position → (∀ u ∈ back, u.name = name → u.position ≤ 0) →
      specTolerance name (front ++ t :: back) d = t.position) := by
  have hdefault : ∀ (tols : List JointTolerance) (e : ℚ),
      (∀ t ∈ tols, t.name = name → t.position ≤ 0) → specTolerance name tols e = e := by
    intro tols
    induction tols with
    | nil => intro e _; simp [specTolerance]
    | cons t rest ih =>
      intro e h
      rw [specTolerance_cons]
      have hc : (t.name == name && decide (t.position > 0)) = false := by
        by_cases hn : t.name = name
        · have := h t (List.mem_cons_self _ _) hn
          simp [hn, not_lt.mpr this]
        · simp [hn]
      simp only [hc, Bool.false_eq_true, if_false]
      exact ih e (fun u hu => h u (List.mem_cons_of_mem _ hu))
  refine ⟨fun tols h => hdefault tols d h, ?_⟩
  intro front
  induction front generalizing d with
  | nil =>
    intro back t hn hp hb
    rw [List.nil_append, specTolerance_cons]
    have hc : (t.name == name && decide (t.position > 0)) = true := by simp [hn, hp]
    simp only [hc, if_true]
    exact hdefault back _ hb
  | cons f front ih =>
    intro back t hn hp hb
    rw [List.cons_append, specTolerance_cons]
    exact ih _ back t hn hp hb

/-- The velocity `statusCallback` stores for joint `i` in a cycle with valid
telemetry that computes one: the position difference divided by `dt`, and `dt` is
the previous joint-state stamp minus the new sample time (line 208). -/
theorem pollStatus_velocity (k : Ext) (s : State) (st : Status) (link : SDHX)
    (current_real : Int) (tel : Telemetry) (i : Fin 2)
    (hst : s.g_status = some st) (hl : s.g_sdhx = some link) (hi : link.initialized = true)
    (hok : tel.ok = true)
    (hfr : (k.NOT_INITIALIZED ||| k.MASK_FINGER_READY) &&& k.MASK_FINGER_READY ≠ 0)
    (hdt : toSec s.g_js.stamp - toSec current_real ≠ 0) :
    (pollStatus k s current_real tel).g_js.velocity.get i =
      (k.from_degrees (((tel.position_cdeg.get i : Int) : ℚ) / 100) - s.g_js.position.get i) /
        (toSec s.g_js.stamp - toSec current_real) := by
  unfold pollStatus newStatus
  simp only [hst, hl, hi, hok, if_true, Option.isNone_some, Bool.not_false, Bool.true_and,
    Option.getD_some, bne_iff_ne, ne_eq, hfr, not_false_eq_true, decide_True, decide_not,
    hdt, Bool.not_eq_true', List.foldl_cons, List.foldl_nil]
  fin_cases i <;> simp [pollJoint, Arr2.get, Arr2.set, hdt]

/-- C9 at the failing input: the ready finger published position 0 at t = 1 s; the
sample taken at t = 2 s reads one degree for joint 0. The position grew, the time
grew, and the velocity stored for joint 0 is negative: `dt` is -1 s. -/
theorem statusCallback_velocity_sign :
    ∃ s1, statusCallback sampleExt readyState 2000000000 movedTelemetry = some s1 ∧
      readyState.g_js.stamp = 1000000000 ∧ s1.g_js.stamp = 2000000000 ∧
      readyState.g_js.position.x0 = 0 ∧ s1.g_js.position.x0 = 71 / 4068 ∧
      s1.g_js.velocity.x0 = -(71 / 4068) ∧ s1.g_js.velocity.x0 < 0 := by
  refine ⟨_, rfl, ?_, ?_, ?_, ?_, ?_, ?_⟩ <;> decide!

theorem init_with_link (k : Ext) (s : State) (li : LinkInit) (h : s.g_sdhx.isSome = true) :
    init k s li = some (false, s) := by
  unfold init
  cases hs : s.g_sdhx with
  | none => simp [hs] at h
  | some link => rfl

theorem recover_uninitialized (k : Ext) (s : State) (st : Status) (link : SDHX)
    (li : LinkInit) (hl : s.g_sdhx = some link) (hi : link.initialized = false)
    (hst : s.g_status = some st) :
    recover k s li = some ((st.status &&& k.MASK_ERROR == 0) && (st.rc == 0), s) := by
  unfold recover
  simp only [hl, hst, hi]
  cases (st.status &&& k.MASK_ERROR == 0) && (st.rc == 0) <;> simp

theorem runCalls_uninitialized (k : Ext) (s : State) (st : Status) (link : SDHX)
    (hl : s.g_sdhx = some link) (hi : link.initialized = false) (hst : s.g_status = some st)
    (calls : List LifecycleCall) :
    runCalls k s calls = some (calls.map (expectedAnswer k st), s) := by
  induction calls with
  | nil => rfl
  | cons c rest ih =>
    have hc : runCall k s c = some (expectedAnswer k st c, s) := by
      cases c with
      | init li => exact init_with_link k s li (by simp [hl])
      | recover li => exact recover_uninitialized k s st link li hl hi hst
    simp only [runCalls, hc, ih, List.map_cons]

/-- C10: `init()` fails and changes nothing when a link instance already exists; a
failed `init()` that made the instance leaves it in place (only `g_sdhx` and
`g_port` change); and once the link exists uninitialised, every sequence of
`init()` and `recover()` calls leaves the state, hence the link, untouched: each
`init()` answers failure, each `recover()` answers success when the Status is
error-free and failure otherwise. In particular this is the situation after an
`init()` whose link construction failed and left the link uninitialised. -/
theorem init_recover_after_failed_init (k : Ext) :
    (∀ (s : State) (li : LinkInit), s.g_sdhx.isSome = true → init k s li = some (false, s)) ∧
    (∀ (s : State) (li : LinkInit), s.g_sdhx = none → li.ok = false →
      init k s li = some (false, { s with g_sdhx := some li.link, g_port := li.port })) ∧
    (∀ (s : State) (st : Status) (link : SDHX) (calls : List LifecycleCall),
      s.g_sdhx = some link → link.initialized = false → s.g_status = some st →
      runCalls k s calls = some (calls.map (expectedAnswer k st), s)) ∧
    (∀ (s : State) (st : Status) (li : LinkInit) (calls : List LifecycleCall),
      s.g_sdhx = none → s.g_status = some st → li.ok = false → li.link.initialized = false →
      ∃ s1, init k s li = some (false, s1) ∧ s1.g_sdhx = some li.link ∧
        s1.g_status = s.g_status ∧
        runCalls k s1 calls = some (calls.map (expectedAnswer k st), s1)) := by
  have h2 : ∀ (s : State) (li : LinkInit), s.g_sdhx = none → li.ok = false →
      init k s li = some (false, { s with g_sdhx := some li.link, g_port := li.port }) := by
    intro s li hn hok
    unfold init
    simp [hn, hok]
  refine ⟨init_with_link k, h2, ?_, ?_⟩
  · intro s st link calls hl hi hst
    exact runCalls_uninitialized k s st link hl hi hst calls
  · intro s st li calls hn hst hok hi
    exact ⟨{ s with g_sdhx := some li.link, g_port := li.port }, h2 s li hn hok, rfl, rfl,
      runCalls_uninitialized k { s with g_sdhx := some li.link, g_port := li.port } st li.link
        rfl hi hst calls⟩

/-- C10 at a concrete input: after the first poll the link construction fails;
then `init()`, `recover()`, `init()` with constructions that would succeed answer
failure, success (the Status is error-free), failure, and the link stays the
uninitialised one. -/
theorem init_recover_after_failed_init_witness :
    ∃ s1, init sampleExt polledState failedLink = some (false, s1) ∧
      s1.g_sdhx = some { initialized := false } ∧
      runCalls sampleExt s1
        [LifecycleCall.init goodLink, LifecycleCall.recover goodLink,
         LifecycleCall.init goodLink] = some ([false, true, false], s1) := by
  obtain ⟨s1, h, hl, _, hr⟩ :=
    (init_recover_after_failed_init sampleExt).2.2.2 polledState
      { Status.fresh with stamp := 1000000000 } failedLink
      [LifecycleCall.init goodLink, LifecycleCall.recover goodLink, LifecycleCall.init goodLink]
      rfl rfl rfl rfl
  exact ⟨s1, h, hl, hr⟩

/-! ### The state of an active goal

`checkAction_nolock` reads `g_status` and `g_goal_tolerance[i]` without a test.
Both exist whenever a goal is active: this holds when `main` is done and every
callback keeps it. -/

theorem goalTolerances_length (name : Arr2 String) (tols : List JointTolerance)
    (acc tol : List ℚ) (h : goalTolerances name tols acc = some tol) :
    tol.length = acc.length := by
  induction tols generalizing acc with
  | nil =>
    simp only [goalTolerances, Option.some.injEq] at h
    rw [h]
  | cons t rest ih =>
    unfold goalTolerances at h
    cases hj : firstJoint name t.name with
    | none => simp [hj] at h
    | some j =>
      simp only [hj] at h
      have := ih _ h
      split at this <;> simpa using this

theorem checkAction_nolock_committed (k : Ext) (s s1 : State) (d ret : Bool)
    (hs : GoalCommitted s) (h : checkAction_nolock k s d = some (ret, s1)) :
    GoalCommitted s1 := by
  unfold checkAction_nolock at h
  split at h
  · cases hg : goalReached s with
    | none => simp [hg] at h
    | some gr =>
      obtain ⟨g, r⟩ := gr
      simp only [hg] at h
      split at h
      · simp only [Option.some.injEq, Prod.mk.injEq] at h
        intro ha
        rw [← h.2] at ha
        simp [ActionServer.setAborted] at ha
      · split at h
        · simp only [Option.some.injEq, Prod.mk.injEq] at h
          intro ha
          rw [← h.2] at ha
          simp [ActionServer.setSucceeded] at ha
        · split at h
          · simp only [Option.some.injEq, Prod.mk.injEq] at h
            intro ha
            rw [← h.2] at ha
            simp [ActionServer.setAborted] at ha
          · simp only [Option.some.injEq, Prod.mk.injEq] at h
            rw [← h.2]
            exact hs
  · simp only [Option.some.injEq, Prod.mk.injEq] at h
    rw [← h.2]
    exact hs

theorem pollStatus_committed (k : Ext) (s : State) (current_real : Int) (tel : Telemetry) :
    (pollStatus k s current_real tel).g_status.isSome = true ∧
    (pollStatus k s current_real tel).g_goal_tolerance = s.g_goal_tolerance ∧
    (pollStatus k s current_real tel).g_as = s.g_as := by
  unfold pollStatus
  by_cases hc : ((newStatus k s current_real tel).status &&& k.MASK_FINGER_READY != 0) = true
  · rw [if_pos hc]
    exact ⟨rfl, rfl, rfl⟩
  · rw [if_neg hc]
    exact ⟨rfl, rfl, rfl⟩

theorem halt_fields (s : State) (ok : Bool) :
    (halt s ok).2.g_as = s.g_as ∧ (halt s ok).2.g_goal_tolerance = s.g_goal_tolerance ∧
    (halt s ok).2.g_status = s.g_status := by
  unfold halt
  cases s.g_sdhx <;> exact ⟨rfl, rfl, rfl⟩

theorem init_fields (k : Ext) (s s1 : State) (li : LinkInit) (r : Bool)
    (h : init k s li = some (r, s1)) :
    s1.g_as = s.g_as ∧ s1.g_goal_tolerance = s.g_goal_tolerance ∧
    (s.g_status.isSome = true → s1.g_status.isSome = true) := by
  unfold init at h
  cases hl : s.g_sdhx with
  | some link =>
    simp only [hl, Option.some.injEq, Prod.mk.injEq] at h
    rw [← h.2]
    exact ⟨rfl, rfl, id⟩
  | none =>
    simp only [hl] at h
    split at h
    · cases hst : s.g_status with
      | none => simp [hst] at h
      | some st =>
        simp only [hst, Option.some.injEq, Prod.mk.injEq] at h
        rw [← h.2]
        exact ⟨rfl, rfl, fun _ => rfl⟩
    · simp only [Option.some.injEq, Prod.mk.injEq] at h
      rw [← h.2]
      exact ⟨rfl, rfl, id⟩

theorem recover_fields (k : Ext) (s s1 : State) (li : LinkInit) (r : Bool)
    (h : recover k s li = some (r, s1)) :
    s1.g_as = s.g_as ∧ s1.g_goal_tolerance = s.g_goal_tolerance ∧
    (s.g_status.isSome = true → s1.g_status.isSome = true) := by
  unfold recover at h
  cases hl : s.g_sdhx with
  | none =>
    simp only [hl, Option.some.injEq, Prod.mk.injEq] at h
    rw [← h.2]
    exact ⟨rfl, rfl, id⟩
  | some link =>
    simp only [hl] at h
    cases hst : s.g_status with
    | none => simp [hst] at h
    | some st =>
      simp only [hst] at h
      split at h
      · simp only [Option.some.injEq, Prod.mk.injEq] at h
        rw [← h.2]
        exact ⟨rfl, rfl, fun _ => by simp [hst]⟩
      · split at h
        · cases hi : init k { s with g_sdhx := none, g_status := some { st with rc := 0 } } li with
          | none => simp [hi] at h
          | some p =>
            obtain ⟨b, s2⟩ := p
            have hf := init_fields k _ s2 li b hi
            cases b with
            | false =>
              simp only [hi, Option.some.injEq, Prod.mk.injEq] at h
              rw [← h.2]
              exact ⟨hf.1, hf.2.1, fun _ => hf.2.2 rfl⟩
            | true =>
              simp only [hi] at h
              cases hs2 : s2.g_status with
              | none => simp [hs2] at h
              | some st2 =>
                simp only [hs2, Option.some.injEq, Prod.mk.injEq] at h
                rw [← h.2]
                exact ⟨hf.1, hf.2.1, fun _ => rfl⟩
        · simp only [Option.some.injEq, Prod.mk.injEq] at h
          rw [← h.2]
          exact ⟨rfl, rfl, fun _ => by simp [hst]⟩

theorem initCallback_fields (k : Ext) (s s1 : State) (li : LinkInit) (resp : TriggerResponse)
    (h : initCallback k s li = some (resp, s1)) :
    s1.g_as.active = s.g_as.active ∧ s1.g_goal_tolerance = s.g_goal_tolerance ∧
    (s.g_status.isSome = true → s1.g_status.isSome = true) := by
  unfold initCallback at h
  split at h
  · simp only [Option.some.injEq, Prod.mk.injEq] at h
    rw [← h.2]
    exact ⟨rfl, rfl, id⟩
  · split at h
    · split at h
      · simp at h
      · rename_i s2 hi
        have hf := init_fields k s s2 li true hi
        simp only [Option.some.injEq, Prod.mk.injEq] at h
        rw [← h.2]
        exact ⟨by rw [← hf.1]; rfl, hf.2.1, hf.2.2⟩
      · rename_i s2 hi
        have hf := init_fields k s s2 li false hi
        simp only [Option.some.injEq, Prod.mk.injEq] at h
        rw [← h.2]
        exact ⟨by rw [← hf.1], hf.2.1, hf.2.2⟩
    · split at h
      · split at h
        · simp at h
        · rename_i r s2 hrc
          have hf := recover_fields k _ s2 li r hrc
          simp only [Option.some.injEq, Prod.mk.injEq] at h
          rw [← h.2]
          have hact : s2.g_as.active = s.g_as.active := by
            have := congrArg ActionServer.active hf.1
            exact this
          exact ⟨hact, hf.2.1, hf.2.2⟩
      · simp only [Option.some.injEq, Prod.mk.injEq] at h
        rw [← h.2]
        exact ⟨rfl, rfl, id⟩

theorem goalCommitted_of_fields (s s1 : State) (hs : GoalCommitted s)
    (ha : s1.g_as = s.g_as) (ht : s1.g_goal_tolerance = s.g_goal_tolerance)
    (hst : s.g_status.isSome = true → s1.g_status.isSome = true) : GoalCommitted s1 := by
  intro h
  rw [ha] at h
  rw [ht]
  exact ⟨hst (hs h).1, (hs h).2⟩

theorem isFingerReady_nolock_status (k : Ext) (s : State)
    (h : isFingerReady_nolock k s = true) : s.g_status.isSome = true := by
  unfold isFingerReady_nolock at h
  cases hs : s.g_status with
  | none => simp [hs] at h
  | some st => rfl

theorem resendCommand_fields (k : Ext) (s : State) (ok : Bool) :
    (resendCommand k s ok).g_as = s.g_as ∧
    (resendCommand k s ok).g_goal_tolerance = s.g_goal_tolerance ∧
    (resendCommand k s ok).g_status = s.g_status := by
  unfold resendCommand
  split
  · split
    · unfold sendMove
      split <;> exact ⟨rfl, rfl, rfl⟩
    · exact ⟨rfl, rfl, rfl⟩
  · exact halt_fields _ ok

/-- Every callback keeps `GoalCommitted`: while a goal is active the Status exists
and `g_goal_tolerance` has its two entries. -/
theorem goalCommitted_preserved (k : Ext) (s s1 : State) (cb : Callback)
    (hs : GoalCommitted s) (h : runCallback k s cb = some s1) : GoalCommitted s1 := by
  cases cb with
  | status current_real tel =>
    simp only [runCallback, statusCallback] at h
    have hp := pollStatus_committed k s current_real tel
    have hps : GoalCommitted (pollStatus k s current_real tel) :=
      goalCommitted_of_fields s _ hs hp.2.2 hp.2.1 (fun _ => hp.1)
    cases hc : checkAction_nolock k (pollStatus k s current_real tel) false with
    | none => simp [hc] at h
    | some p =>
      obtain ⟨ret, s2⟩ := p
      have h2 := checkAction_nolock_committed k _ s2 false ret hps hc
      simp only [hc, Option.some.injEq] at h
      rw [← h]
      refine goalCommitted_of_fields s2 _ h2 ?_ ?_ ?_
      · split <;> split <;> rfl
      · split <;> split <;> rfl
      · intro hh
        split <;> split <;> exact hh
  | deadline ok =>
    simp only [runCallback, handleDeadline] at h
    split at h
    · cases hc : checkAction_nolock k s true with
      | none => simp [hc] at h
      | some p =>
        obtain ⟨ret, s2⟩ := p
        have h2 := checkAction_nolock_committed k s s2 true ret hs hc
        cases ret with
        | true =>
          simp only [hc, Option.some.injEq] at h
          rw [← h]
          exact h2
        | false =>
          simp only [hc] at h
          cases hst : s2.g_status with
          | none => simp [hst] at h
          | some st =>
            simp only [hst, Option.some.injEq] at h
            rw [← h]
            refine goalCommitted_of_fields s2 _ h2 ?_ ?_ ?_
            · exact (halt_fields _ ok).1
            · exact (halt_fields _ ok).2.1
            · intro _
              rw [(halt_fields _ ok).2.2]
              rfl
    · simp only [Option.some.injEq] at h
      rw [← h]
      exact hs
  | goal goal now now2 =>
    simp only [runCallback] at h
    intro ha
    obtain ⟨last, cmd, tol, hv, hr, hs1⟩ := goalCB_accepted k s goal now now2 s1 h ha
    have hf := commitGoal_fields (takeGoal s) cmd tol (trajectory_deadline goal last now) now2
    have ht := (validateGoal_next k (takeGoal s) goal last cmd tol hv).2
    have hlen := goalTolerances_length _ _ _ _ ht
    rw [hs1, hf.2.2.1, hf.2.2.2.2.2.1]
    exact ⟨isFingerReady_nolock_status k s hr, by simpa using hlen⟩
  | cancel ok =>
    simp only [runCallback, cancelCB] at h
    cases hst : s.g_status with
    | none => simp [hst] at h
    | some st =>
      simp only [hst, Option.some.injEq] at h
      intro ha
      rw [← h] at ha
      simp [ActionServer.setPreempted] at ha
  | resend ok =>
    simp only [runCallback, Option.some.injEq] at h
    rw [← h]
    have hf := resendCommand_fields k s ok
    exact goalCommitted_of_fields s _ hs hf.1 hf.2.1 (fun hh => by rw [hf.2.2]; exact hh)
  | initSrv li =>
    simp only [runCallback] at h
    cases hi : initCallback k s li with
    | none => simp [hi] at h
    | some p =>
      obtain ⟨resp, s2⟩ := p
      simp only [hi, Option.map_some', Option.some.injEq] at h
      rw [← h]
      have hf := initCallback_fields k s s2 li resp hi
      intro ha
      rw [hf.1] at ha
      rw [hf.2.1]
      exact ⟨hf.2.2 (hs ha).1, (hs ha).2⟩
  | haltSrv ok =>
    simp only [runCallback, haltCallback, Option.some.injEq] at h
    rw [← h]
    cases hst : s.g_status with
    | none => exact hs
    | some st =>
      have hf := halt_fields s ok
      exact goalCommitted_of_fields s _ hs hf.1 hf.2.1 (fun hh => by rw [hf.2.2]; exact hh)
  | recoverSrv li =>
    simp only [runCallback, recoverCallback] at h
    cases hst : s.g_status with
    | none =>
      simp only [hst, Option.map_some', Option.some.injEq] at h
      rw [← h]
      exact hs
    | some st =>
      simp only [hst] at h
      cases hrc : recover k s li with
      | none => simp [hrc] at h
      | some p =>
        obtain ⟨b, s2⟩ := p
        have hf := recover_fields k s s2 li b hrc
        simp only [hrc, Option.map_some', Option.some.injEq] at h
        rw [← h]
        exact goalCommitted_of_fields s s2 hs hf.1 hf.2.1 hf.2.2

/-- When `main` is done no goal is active. -/
theorem goalCommitted_start : GoalCommitted startState := by
  intro h
  exact absurd h (by decide)

/-! ### Moves and readiness -/

/-- `checkAction_nolock` on an active goal, once `goal_reached` and `result` are
known. -/
theorem checkAction_nolock_active (k : Ext) (s : State) (deadline_exceeded gr : Bool)
    (r : FJTResult) (hactive : s.g_as.active = true) (hg : goalReached s = some (gr, r)) :
    checkAction_nolock k s deadline_exceeded =
      if (!isFingerReady_nolock k s) = true then
        some (true, { s with g_deadline_timer := s.g_deadline_timer.stop,
                             g_as := s.g_as.setAborted FJTResult.fresh "" })
      else if (s.g_motion_stopped && (gr || s.g_motors_moved)) = true then
        some (true, { s with g_deadline_timer := s.g_deadline_timer.stop,
                             g_as := s.g_as.setSucceeded r })
      else if deadline_exceeded = true then
        some (false, { s with g_deadline_timer := s.g_deadline_timer.stop,
                              g_as := s.g_as.setAborted
                                { r with error_code := ErrorCode.GOAL_TOLERANCE_VIOLATED }
                                "goal not reached in time" })
      else some (true, s) := by
  unfold checkAction_nolock
  simp only [hactive, if_true, hg]

/-- C11: for a state with an active goal (its Status `st` exists, two tolerance
entries) the completion check returns, and whenever it succeeds the goal with a
result `result`, that result has error code `SUCCESSFUL` if and only if every
joint is within its tolerance of the Command position; when a joint is outside
tolerance the success went through the motors-moved override and the result
carries `GOAL_TOLERANCE_VIOLATED`. -/
theorem checkAction_nolock_success_code (k : Ext) (s : State) (st : Status)
    (deadline_exceeded : Bool) (hactive : s.g_as.active = true)
    (hst : s.g_status = some st) (htol : s.g_goal_tolerance.length = 2) :
    ∃ ret s1, checkAction_nolock k s deadline_exceeded = some (ret, s1) ∧
      ∀ result : FJTResult,
        s1.g_as.reported = s.g_as.reported ++ [GoalOutcome.succeeded result] →
        (result.error_code = ErrorCode.SUCCESSFUL ↔ withinTolerance st s) ∧
        (¬ withinTolerance st s →
          s.g_motors_moved = true ∧
          result.error_code = ErrorCode.GOAL_TOLERANCE_VIOLATED) := by
  have hsame : ∀ result : FJTResult,
      ¬ (s.g_as.reported = s.g_as.reported ++ [GoalOutcome.succeeded result]) := by
    intro result e
    have := congrArg List.length e
    simp at this
  have haborted : ∀ (r0 result : FJTResult) (text : String),
      ¬ ((s.g_as.setAborted r0 text).reported =
        s.g_as.reported ++ [GoalOutcome.succeeded result]) := by
    intro r0 result text e
    simp [ActionServer.setAborted] at e
  have hsucc : ∀ r0 result : FJTResult,
      (s.g_as.setSucceeded r0).reported = s.g_as.reported ++ [GoalOutcome.succeeded result] →
      result = r0 := by
    intro r0 result e
    simp only [ActionServer.setSucceeded, List.append_cancel_left_eq, List.cons.injEq,
      GoalOutcome.succeeded.injEq, and_true] at e
    exact e.symm
  have hfacts : ∃ gr r, goalReached s = some (gr, r) ∧
      ((s.g_motion_stopped && (gr || s.g_motors_moved)) = true →
        (r.error_code = ErrorCode.SUCCESSFUL ↔ withinTolerance st s) ∧
        (¬ withinTolerance st s →
          s.g_motors_moved = true ∧ r.error_code = ErrorCode.GOAL_TOLERANCE_VIOLATED)) := by
    rcases goalReached_cases s st hst htol with ⟨hm, hg⟩ | ⟨_, hw, hg⟩ | ⟨hm, hw, hg⟩
    · refine ⟨false, FJTResult.fresh, hg, fun h2 => ?_⟩
      rw [hm] at h2
      simp at h2
    · exact ⟨true, FJTResult.fresh, hg, fun _ =>
        ⟨⟨fun _ => hw, fun _ => rfl⟩, fun hn => absurd hw hn⟩⟩
    · refine ⟨false, { error_code := ErrorCode.GOAL_TOLERANCE_VIOLATED }, hg, fun h2 => ?_⟩
      have hmv : s.g_motors_moved = true := by
        rw [hm] at h2
        simpa using h2
      exact ⟨⟨fun h => absurd h (by decide), fun h => absurd h hw⟩, fun _ => ⟨hmv, rfl⟩⟩
  obtain ⟨gr, r, hg, hres⟩ := hfacts
  rw [checkAction_nolock_active k s deadline_exceeded gr r hactive hg]
  by_cases h1 : (!isFingerReady_nolock k s) = true
  · rw [if_pos h1]
    exact ⟨_, _, rfl, fun result e => absurd e (haborted _ _ _)⟩
  · rw [if_neg h1]
    by_cases h2 : (s.g_motion_stopped && (gr || s.g_motors_moved)) = true
    · rw [if_pos h2]
      refine ⟨_, _, rfl, fun result e => ?_⟩
      have hr : result = r := hsucc r result e
      rw [hr]
      exact hres h2
    · rw [if_neg h2]
      by_cases h3 : deadline_exceeded = true
      · rw [if_pos h3]
        exact ⟨_, _, rfl, fun result e => absurd e (haborted _ _ _)⟩
      · rw [if_neg h3]
        exact ⟨_, _, rfl, fun result e => absurd e (hsame _)⟩

/-- C11 at a concrete input: ready, at rest 573 centidegrees off the target with
tolerance 286, motors moved: the check succeeds the goal, and the result carries
`GOAL_TOLERANCE_VIOLATED`, not `SUCCESSFUL`. -/
theorem checkAction_nolock_success_code_witness :
    overshootState.g_as.active = true ∧ overshootState.g_status = some readyStatus ∧
    overshootState.g_goal_tolerance.length = 2 ∧
    (checkAction_nolock sampleExt overshootState false).map (fun p => p.2.g_as.reported) =
      some [GoalOutcome.succeeded { error_code := ErrorCode.GOAL_TOLERANCE_VIOLATED }] ∧
    ¬ withinTolerance readyStatus overshootState := by
  have hrep : (checkAction_nolock sampleExt overshootState false).map
      (fun p => p.2.g_as.reported) =
      some [GoalOutcome.succeeded { error_code := ErrorCode.GOAL_TOLERANCE_VIOLATED }] := by
    decide!
  refine ⟨rfl, rfl, rfl, hrep, ?_⟩
  obtain ⟨ret, s1, h, hres⟩ :=
    checkAction_nolock_success_code sampleExt overshootState readyStatus false rfl rfl rfl
  rw [h] at hrep
  simp only [Option.map_some', Option.some.injEq] at hrep
  have hiff := (hres { error_code := ErrorCode.GOAL_TOLERANCE_VIOLATED } hrep).1
  intro hw
  exact absurd (hiff.mpr hw) (by decide)

/-! ### Which goals are accepted -/

theorem isFingerReady_nolock_congr (k : Ext) (s s1 : State) (h : s1.g_status = s.g_status) :
    isFingerReady_nolock k s1 = isFingerReady_nolock k s := by
  unfold isFingerReady_nolock
  rw [h]

theorem activeReady_of_fields (k : Ext) (s s1 : State) (hs : ActiveReady k s)
    (ha : s1.g_as = s.g_as) (hst : s1.g_status = s.g_status) : ActiveReady k s1 := by
  intro h
  rw [ha] at h
  rw [isFingerReady_nolock_congr k s s1 hst]
  exact hs h

theorem clearMask_of_clear (x m : Nat) (h : x &&& m = 0) : clearMask x m = x := by
  unfold clearMask
  rw [h]
  exact Nat.xor_zero x

theorem ready_error_free (k : Ext) (s : State) (st : Status)
    (hmask : k.MASK_FINGER_READY &&& k.MASK_ERROR = 0) (hst : s.g_status = some st)
    (hr : isFingerReady_nolock k s = true) : st.status &&& k.MASK_ERROR = 0 ∧ st.rc = 0 := by
  obtain ⟨st1, h1, _, h3, h4⟩ := (isFingerReady_nolock_iff k s hmask).mp hr
  rw [hst] at h1
  cases h1
  exact ⟨h3, h4⟩

theorem checkAction_nolock_activeReady (k : Ext) (s s1 : State) (d ret : Bool)
    (h : checkAction_nolock k s d = some (ret, s1)) : ActiveReady k s1 := by
  unfold checkAction_nolock at h
  by_cases hact : s.g_as.active = true
  · simp only [hact, if_true] at h
    cases hg : goalReached s with
    | none => simp [hg] at h
    | some gr =>
      obtain ⟨g, r⟩ := gr
      simp only [hg] at h
      cases hr : isFingerReady_nolock k s with
      | false =>
        simp only [hr, Bool.not_false, if_true, Option.some.injEq, Prod.mk.injEq] at h
        intro ha
        rw [← h.2] at ha
        simp [ActionServer.setAborted] at ha
      | true =>
        simp only [hr, Bool.not_true, Bool.false_eq_true, if_false] at h
        split at h
        · simp only [Option.some.injEq, Prod.mk.injEq] at h
          intro ha
          rw [← h.2] at ha
          simp [ActionServer.setSucceeded] at ha
        · split at h
          · simp only [Option.some.injEq, Prod.mk.injEq] at h
            intro ha
            rw [← h.2] at ha
            simp [ActionServer.setAborted] at ha
          · simp only [Option.some.injEq, Prod.mk.injEq] at h
            rw [← h.2]
            exact fun _ => hr
  · simp only [hact, Bool.false_eq_true, if_false, Option.some.injEq, Prod.mk.injEq] at h
    rw [← h.2]
    exact fun ha => absurd ha hact

theorem init_ready (k : Ext) (s s1 : State) (li : LinkInit) (r : Bool)
    (hmask : k.MASK_FINGER_READY &&& k.MASK_ERROR = 0)
    (h : init k s li = some (r, s1)) (hr : isFingerReady_nolock k s = true) :
    isFingerReady_nolock k s1 = true := by
  unfold init at h
  cases hl : s.g_sdhx with
  | some link =>
    simp only [hl, Option.some.injEq, Prod.mk.injEq] at h
    rw [← h.2]
    exact hr
  | none =>
    simp only [hl] at h
    split at h
    · cases hst : s.g_status with
      | none => simp [hst] at h
      | some st =>
        obtain ⟨he, hrc⟩ := ready_error_free k s st hmask hst hr
        have hr2 : isFingerReady_nolock k s = true := hr
        unfold isFingerReady_nolock at hr2
        simp only [hst] at h hr2
        simp only [Option.some.injEq, Prod.mk.injEq] at h
        rw [← h.2]
        unfold isFingerReady_nolock
        simp only [clearMask_of_clear _ _ he]
        have hr3 : st.status &&& (k.MASK_FINGER_READY ||| k.MASK_ERROR) = k.MASK_FINGER_READY ∧
            st.rc = 0 := by simpa using hr2
        simpa using hr3.1
    · simp only [Option.some.injEq, Prod.mk.injEq] at h
      rw [← h.2]
      exact (isFingerReady_nolock_congr k s _ rfl).trans hr

theorem recover_ready (k : Ext) (s s1 : State) (li : LinkInit) (r : Bool)
    (hmask : k.MASK_FINGER_READY &&& k.MASK_ERROR = 0)
    (h : recover k s li = some (r, s1)) (hr : isFingerReady_nolock k s = true) :
    isFingerReady_nolock k s1 = true := by
  unfold recover at h
  cases hl : s.g_sdhx with
  | none =>
    simp only [hl, Option.some.injEq, Prod.mk.injEq] at h
    rw [← h.2]
    exact hr
  | some link =>
    simp only [hl] at h
    cases hst : s.g_status with
    | none => simp [hst] at h
    | some st =>
      obtain ⟨he, hrc⟩ := ready_error_free k s st hmask hst hr
      simp only [hst, he, hrc, beq_self_eq_true, Bool.and_self, if_true, Option.some.injEq,
        Prod.mk.injEq] at h
      rw [← h.2]
      exact hr

theorem initCallback_ready (k : Ext) (s s1 : State) (li : LinkInit) (resp : TriggerResponse)
    (hmask : k.MASK_FINGER_READY &&& k.MASK_ERROR = 0)
    (h : initCallback k s li = some (resp, s1)) (hr : isFingerReady_nolock k s = true) :
    isFingerReady_nolock k s1 = true := by
  unfold initCallback at h
  split at h
  · simp only [Option.some.injEq, Prod.mk.injEq] at h
    rw [← h.2]
    exact hr
  · split at h
    · split at h
      · simp at h
      · rename_i s2 hi
        simp only [Option.some.injEq, Prod.mk.injEq] at h
        rw [← h.2]
        exact (isFingerReady_nolock_congr k s2 _ rfl).trans (init_ready k s s2 li true hmask hi hr)
      · rename_i s2 hi
        simp only [Option.some.injEq, Prod.mk.injEq] at h
        rw [← h.2]
        exact (isFingerReady_nolock_congr k s2 _ rfl).trans (init_ready k s s2 li false hmask hi hr)
    · split at h
      · split at h
        · simp at h
        · rename_i b s2 hrc
          simp only [Option.some.injEq, Prod.mk.injEq] at h
          rw [← h.2]
          have hr0 : isFingerReady_nolock k { s with g_as := s.g_as.start } = true :=
            (isFingerReady_nolock_congr k s _ rfl).trans hr
          exact (isFingerReady_nolock_congr k s2 _ rfl).trans
            (recover_ready k _ s2 li b hmask hrc hr0)
      · simp only [Option.some.injEq, Prod.mk.injEq] at h
        rw [← h.2]
        exact hr

/-- Every callback keeps `ActiveReady`: the only writer of a Status that is not
ready is `statusCallback`, and it aborts the active goal in the same call. -/
theorem activeReady_preserved (k : Ext) (s s1 : State) (cb : Callback)
    (hmask : k.MASK_FINGER_READY &&& k.MASK_ERROR = 0)
    (hs : ActiveReady k s) (h : runCallback k s cb = some s1) : ActiveReady k s1 := by
  cases cb with
  | status current_real tel =>
    simp only [runCallback, statusCallback] at h
    cases hc : checkAction_nolock k (pollStatus k s current_real tel) false with
    | none => simp [hc] at h
    | some p =>
      obtain ⟨ret, s2⟩ := p
      have h2 := checkAction_nolock_activeReady k _ s2 false ret hc
      simp only [hc, Option.some.injEq] at h
      rw [← h]
      refine activeReady_of_fields k s2 _ h2 ?_ ?_
      · split <;> split <;> rfl
      · split <;> split <;> rfl
  | deadline ok =>
    simp only [runCallback, handleDeadline] at h
    split at h
    · cases hc : checkAction_nolock k s true with
      | none => simp [hc] at h
      | some p =>
        obtain ⟨ret, s2⟩ := p
        have h2 := checkAction_nolock_activeReady k s s2 true ret hc
        cases ret with
        | true =>
          simp only [hc, Option.some.injEq] at h
          rw [← h]
          exact h2
        | false =>
          simp only [hc] at h
          cases hst : s2.g_status with
          | none => simp [hst] at h
          | some st =>
            simp only [hst, Option.some.injEq] at h
            rw [← h]
            refine activeReady_of_fields k s2 _ h2 ?_ ?_
            · exact (halt_fields _ ok).1
            · rw [(halt_fields _ ok).2.2]
              exact hst.symm
    · simp only [Option.some.injEq] at h
      rw [← h]
      exact hs
  | goal goal now now2 =>
    simp only [runCallback] at h
    intro ha
    obtain ⟨last, cmd, tol, _, hr, hs1⟩ := goalCB_accepted k s goal now now2 s1 h ha
    have hf := commitGoal_fields (takeGoal s) cmd tol (trajectory_deadline goal last now) now2
    rw [hs1]
    exact (isFingerReady_nolock_congr k s _ hf.2.2.2.2.2.1).trans hr
  | cancel ok =>
    simp only [runCallback, cancelCB] at h
    cases hst : s.g_status with
    | none => simp [hst] at h
    | some st =>
      simp only [hst, Option.some.injEq] at h
      intro ha
      rw [← h] at ha
      simp [ActionServer.setPreempted] at ha
  | resend ok =>
    simp only [runCallback, Option.some.injEq] at h
    rw [← h]
    have hf := resendCommand_fields k s ok
    exact activeReady_of_fields k s _ hs hf.1 hf.2.2
  | initSrv li =>
    simp only [runCallback] at h
    cases hi : initCallback k s li with
    | none => simp [hi] at h
    | some p =>
      obtain ⟨resp, s2⟩ := p
      simp only [hi, Option.map_some', Option.some.injEq] at h
      rw [← h]
      have hf := initCallback_fields k s s2 li resp hi
      intro ha
      rw [hf.1] at ha
      exact initCallback_ready k s s2 li resp hmask hi (hs ha)
  | haltSrv ok =>
    simp only [runCallback, haltCallback, Option.some.injEq] at h
    rw [← h]
    cases hst : s.g_status with
    | none => exact hs
    | some st =>
      have hf := halt_fields s ok
      exact activeReady_of_fields k s _ hs hf.1 hf.2.2
  | recoverSrv li =>
    simp only [runCallback, recoverCallback] at h
    cases hst : s.g_status with
    | none =>
      simp only [hst, Option.map_some', Option.some.injEq] at h
      rw [← h]
      exact hs
    | some st =>
      simp only [hst] at h
      cases hrc : recover k s li with
      | none => simp [hrc] at h
      | some p =>
        obtain ⟨b, s2⟩ := p
        have hf := recover_fields k s s2 li b hrc
        simp only [hrc, Option.map_some', Option.some.injEq] at h
        rw [← h]
        intro ha
        rw [hf.1] at ha
        exact recover_ready k s s2 li b hmask hrc (hs ha)

/-- In every reachable state an active goal has a ready finger, an existing
Status and its two tolerances. -/
theorem reachable_active (k : Ext) (s : State)
    (hmask : k.MASK_FINGER_READY &&& k.MASK_ERROR = 0) (h : Reachable k s) :
    ActiveReady k s ∧ GoalCommitted s := by
  induction h with
  | start s0 hi =>
    have hna : s0.g_as.active = false := by rw [hi.2.2.1]
    exact ⟨fun ha => absurd (hna ▸ ha) (by decide), fun ha => absurd (hna ▸ ha) (by decide)⟩
  | step s0 s1 cb _ hstep ih =>
    exact ⟨activeReady_preserved k s0 s1 cb hmask ih.1 hstep,
      goalCommitted_preserved k s0 s1 cb ih.2 hstep⟩

theorem reachable_runCallbacks (k : Ext) (s s1 : State) (cbs : List Callback)
    (hs : Reachable k s) (h : runCallbacks k s cbs = some s1) : Reachable k s1 := by
  induction cbs generalizing s with
  | nil =>
    simp only [runCallbacks, Option.some.injEq] at h
    rw [← h]
    exact hs
  | cons cb rest ih =>
    unfold runCallbacks at h
    cases hc : runCallback k s cb with
    | none => simp [hc] at h
    | some s2 =>
      simp only [hc] at h
      exact ih s2 (Reachable.step s s2 cb hs hc) h

theorem initial_startState : Initial startState := by
  refine ⟨rfl, rfl, rfl, rfl, rfl, rfl, rfl, rfl, rfl, rfl, ?_, ?_, rfl⟩ <;> decide!

/-- C7: in every state the node can reach (the masks share no bit) with an active
goal, the Status exists and `handleDeadline` returns; when its completion check
aborts the goal, the Command position is set to the current Status position (the
rest of Command stays) and `halt()` is called; when the check does not abort the
goal, Command is unchanged and `halt()` is not called. In a reachable state the
finger of an active goal is ready, so the abort is the one for a goal not
reached in time. -/
theorem handleDeadline_abort_halts (k : Ext) (s : State) (link_halt_ok : Bool)
    (hmask : k.MASK_FINGER_READY &&& k.MASK_ERROR = 0) (hreach : Reachable k s)
    (hactive : s.g_as.active = true) :
    ∃ st s1, s.g_status = some st ∧ handleDeadline k s link_halt_ok = some s1 ∧
      ((∃ result text, s1.g_as.reported =
          s.g_as.reported ++ [GoalOutcome.aborted result text]) →
        s1.g_as.active = false ∧
        s1.g_command = { s.g_command with position_cdeg := st.joints.position_cdeg } ∧
        s1.log = s.log ++ [Event.halt s.g_sdhx.isSome]) ∧
      ((¬ ∃ result text, s1.g_as.reported =
          s.g_as.reported ++ [GoalOutcome.aborted result text]) →
        s1.g_command = s.g_command ∧ s1.log = s.log) := by
  obtain ⟨har, hgc⟩ := reachable_active k s hmask hreach
  have hready : isFingerReady_nolock k s = true := har hactive
  obtain ⟨hsome, htol⟩ := hgc hactive
  obtain ⟨st, hst⟩ := Option.isSome_iff_exists.mp hsome
  obtain ⟨s1, h, hfail, _, hsucc⟩ := handleDeadline_cases k s st link_halt_ok hactive hst htol
  refine ⟨st, s1, hst, h, ?_, ?_⟩
  · rintro ⟨result, text, hrep⟩
    by_cases hc : s.g_motion_stopped = true ∧
        (withinTolerance st s ∨ s.g_motors_moved = true)
    · obtain ⟨⟨r, hr⟩, _, _⟩ := hsucc hready hc
      rw [hr] at hrep
      simp [ActionServer.setSucceeded] at hrep
    · obtain ⟨has, hcmd, hlog⟩ := hfail hready hc
      exact ⟨by rw [has]; rfl, hcmd, hlog⟩
  · intro hno
    by_cases hc : s.g_motion_stopped = true ∧
        (withinTolerance st s ∨ s.g_motors_moved = true)
    · obtain ⟨_, hcmd, hlog⟩ := hsucc hready hc
      exact ⟨hcmd, hlog⟩
    · obtain ⟨has, _, _⟩ := hfail hready hc
      exact absurd ⟨_, _, by rw [has]; rfl⟩ hno

/-- C7 at a concrete input: after the first poll, the init service, a poll that
finds the finger ready at zero and the scenario goal, the goal is active; the
deadline fires with the finger still at zero, far from the target: the goal is
aborted, Command is frozen at the Status position and `halt()` is called. -/
theorem handleDeadline_abort_halts_witness :
    sampleExt.MASK_FINGER_READY &&& sampleExt.MASK_ERROR = 0 ∧
    ∃ s, Reachable sampleExt s ∧ s.g_as.active = true ∧
      ∃ st s1, s.g_status = some st ∧ handleDeadline sampleExt s true = some s1 ∧
        s1.g_as.active = false ∧
        s1.g_command.position_cdeg = st.joints.position_cdeg ∧
        s1.log = s.log ++ [Event.halt s.g_sdhx.isSome] := by
  have hmask : sampleExt.MASK_FINGER_READY &&& sampleExt.MASK_ERROR = 0 := by decide
  have hrun : (runCallbacks sampleExt startState goalRun).isSome = true := by decide!
  obtain ⟨s, hs⟩ := Option.isSome_iff_exists.mp hrun
  have hreach : Reachable sampleExt s :=
    reachable_runCallbacks sampleExt startState s goalRun
      (Reachable.start startState initial_startState) hs
  have hact : (runCallbacks sampleExt startState goalRun).map (fun t => t.g_as.active) =
      some true := by decide!
  rw [hs] at hact
  have hactive : s.g_as.active = true := by simpa using hact
  have habort : ((runCallbacks sampleExt startState goalRun).bind (fun t =>
      (handleDeadline sampleExt t true).map (fun t1 =>
        decide (t1.g_as.reported = t.g_as.reported ++
          [GoalOutcome.aborted { error_code := ErrorCode.GOAL_TOLERANCE_VIOLATED }
            "goal not reached in time"])))) = some true := by decide!
  rw [hs] at habort
  obtain ⟨st, s1, hst, h, hab, _⟩ :=
    handleDeadline_abort_halts sampleExt s true hmask hreach hactive
  simp only [Option.some_bind, h, Option.map_some', Option.some.injEq,
    decide_eq_true_eq] at habort
  obtain ⟨hina, hcmd, hlog⟩ := hab ⟨_, _, habort⟩
  exact ⟨hmask, s, hreach, hactive, st, s1, hst, h, hina, by rw [hcmd], hlog⟩

end CobHand
